import Mathlib

/-!
Verification development for the deterministic clinical text pipeline of the
scribe-ia-aurora repository: domain routing (`api/template_router.py`),
rule-based extraction (`api/utils/rule_extraction.py`), vitals
canonicalization (`api/utils/_clinical_cleanup_orig.py`), text normalization
(`api/utils/_text_normalizer_orig.py`) and corpus retrieval / autocompletion
(`api/utils/augmentation.py`).

Strings are modelled as `List Char` (Python `str`); Python regular-expression
searches and substitutions are modelled by a small backtracking engine whose
alternative order mirrors Python `re` (leftmost position, greedy quantifiers,
left alternative first).  Numeric scores, computed with IEEE floats in the
source, are modelled exactly over `ℚ` (or over an arbitrary linear ordered
field with a supplied logarithm, for the BM25 retriever).
-/

namespace Aurora

/-! ### Character model (Python `str` methods restricted to the alphabet the
pipeline handles: ASCII plus the Spanish letters used in the source). -/

/-- Python `str.lower` on the characters used by the pipeline. -/
def pyLowerChar (c : Char) : Char :=
  if 'A' ≤ c ∧ c ≤ 'Z' then Char.ofNat (c.toNat + 32)
  else if c = 'Á' then 'á' else if c = 'É' then 'é' else if c = 'Í' then 'í'
  else if c = 'Ó' then 'ó' else if c = 'Ú' then 'ú' else if c = 'Ñ' then 'ñ'
  else if c = 'Ü' then 'ü' else c

/-- Python `str.upper` on the characters used by the pipeline. -/
def pyUpperChar (c : Char) : Char :=
  if 'a' ≤ c ∧ c ≤ 'z' then Char.ofNat (c.toNat - 32)
  else if c = 'á' then 'Á' else if c = 'é' then 'É' else if c = 'í' then 'Í'
  else if c = 'ó' then 'Ó' else if c = 'ú' then 'Ú' else if c = 'ñ' then 'Ñ'
  else if c = 'ü' then 'Ü' else c

def pyLower (s : List Char) : List Char := s.map pyLowerChar

/-- Python `\s` / `str.strip` whitespace for the inputs in scope. -/
def isSpaceChar (c : Char) : Bool :=
  c = ' ' ∨ c = '\t' ∨ c = '\n' ∨ c = '\r' ∨ c = '\x0b' ∨ c = '\x0c'

def isDigitChar (c : Char) : Bool := '0' ≤ c ∧ c ≤ '9'

def isAsciiLetter (c : Char) : Bool :=
  ('a' ≤ c ∧ c ≤ 'z') ∨ ('A' ≤ c ∧ c ≤ 'Z')

/-- The accented letters appearing in the pipeline's vocabulary. -/
def isSpanishLetter (c : Char) : Bool :=
  c = 'á' ∨ c = 'é' ∨ c = 'í' ∨ c = 'ó' ∨ c = 'ú' ∨ c = 'ñ' ∨ c = 'ü' ∨
  c = 'Á' ∨ c = 'É' ∨ c = 'Í' ∨ c = 'Ó' ∨ c = 'Ú' ∨ c = 'Ñ' ∨ c = 'Ü'

def isLetterChar (c : Char) : Bool := isAsciiLetter c ∨ isSpanishLetter c

/-- Python regex `\w` (word character) for the alphabet in scope. -/
def isWordChar (c : Char) : Bool := isLetterChar c ∨ isDigitChar c ∨ c = '_'

def pyStripLeft (s : List Char) : List Char := s.dropWhile isSpaceChar

def pyStrip (s : List Char) : List Char :=
  ((s.dropWhile isSpaceChar).reverse.dropWhile isSpaceChar).reverse

/-- Python substring test `needle in hay`. -/
def isSub (needle hay : List Char) : Bool :=
  (List.range (hay.length + 1)).any fun i => (hay.drop i).take needle.length = needle

/-- Python `str.replace` (all occurrences, literal, left to right); the fuel
argument is structural so that the kernel can evaluate it (it is always called
with enough fuel to finish the string). -/
def pyReplaceGo (src dst : List Char) : Nat → List Char → List Char
  | 0, s => s
  | _ + 1, [] => []
  | f + 1, c :: rest =>
    if src ≠ [] ∧ (c :: rest).take src.length = src then
      dst ++ pyReplaceGo src dst f ((c :: rest).drop src.length)
    else
      c :: pyReplaceGo src dst f rest

def pyReplace (src dst s : List Char) : List Char :=
  pyReplaceGo src dst (s.length + 1) s

/-- `" ".join`-style interposition of a separator. -/
def joinSep (sep : List Char) : List (List Char) → List Char
  | [] => []
  | [x] => x
  | x :: y :: rest => x ++ sep ++ joinSep sep (y :: rest)

/-! ### A small regular-expression engine

Patterns of the source are compiled to this AST.  The matcher enumerates
parses in Python `re` backtracking order: greedy quantifiers (longer first)
and left alternative first, so the head of the result list is the match
Python would pick at a given start position. -/

inductive RE where
  /-- empty pattern -/
  | eps : RE
  /-- literal character -/
  | ch (c : Char) : RE
  /-- character class `[...]` as a predicate -/
  | cls (p : Char → Bool) : RE
  | seq (a b : RE) : RE
  /-- alternation, left branch preferred -/
  | alt (a b : RE) : RE
  /-- greedy Kleene star -/
  | star (r : RE) : RE
  /-- word boundary `\b` -/
  | wb : RE
  /-- negative lookbehind on the previous character -/
  | nlb (p : Char → Bool) : RE
  /-- capturing group (group 1) -/
  | grp (r : RE) : RE
  /-- capturing group (group 2) -/
  | grp2 (r : RE) : RE
  /-- backreference to group 1 -/
  | bref : RE

/-- Matcher state: remaining input, previously consumed character (for `\b`
and lookbehind), and the group-1/group-2 captures. -/
structure MSt where
  rem : List Char
  prev : Option Char
  cap : Option (List Char)
  cap2 : Option (List Char)

def eqCharCI (ci : Bool) (x c : Char) : Bool :=
  if ci then pyLowerChar x = pyLowerChar c else x = c

def memClsCI (ci : Bool) (p : Char → Bool) (x : Char) : Bool :=
  if ci then p x ∨ p (pyLowerChar x) ∨ p (pyUpperChar x) else p x

def isWordOpt : Option Char → Bool
  | none => false
  | some c => isWordChar c

def atBoundary (s : MSt) : Bool := isWordOpt s.prev ≠ isWordOpt s.rem.head?

/-- Case-insensitive prefix test for backreferences; returns the rest and the
last consumed character on success. -/
def brefConsume (ci : Bool) : List Char → List Char → Option Char → Option (List Char × Option Char)
  | [], rest, last => some (rest, last)
  | _ :: _, [], _ => none
  | g :: gs, x :: xs, _ =>
    if eqCharCI ci x g then brefConsume ci gs xs (some x) else none

/-- All parses of `r` from state `s`, in backtracking priority order.  The
fuel bounds the recursion depth structurally (so the kernel can evaluate the
matcher); callers supply fuel that is amply sufficient for the pattern and
input at hand. -/
def runRE (ci : Bool) : Nat → RE → MSt → List MSt
  | 0, _, _ => []
  | f + 1, re, s =>
    match re with
    | .eps => [s]
    | .ch c =>
      match s.rem with
      | [] => []
      | x :: xs => if eqCharCI ci x c then [⟨xs, some x, s.cap, s.cap2⟩] else []
    | .cls p =>
      match s.rem with
      | [] => []
      | x :: xs => if memClsCI ci p x then [⟨xs, some x, s.cap, s.cap2⟩] else []
    | .seq a b => (runRE ci f a s).flatMap (runRE ci f b)
    | .alt a b => runRE ci f a s ++ runRE ci f b s
    | .star r => ((runRE ci f r s).flatMap (runRE ci f (.star r))) ++ [s]
    | .wb => if atBoundary s then [s] else []
    | .nlb p =>
      match s.prev with
      | none => [s]
      | some c => if p c then [] else [s]
    | .grp r =>
      (runRE ci f r s).map fun s' =>
        ⟨s'.rem, s'.prev, some (s.rem.take (s.rem.length - s'.rem.length)), s'.cap2⟩
    | .grp2 r =>
      (runRE ci f r s).map fun s' =>
        ⟨s'.rem, s'.prev, s'.cap, some (s.rem.take (s.rem.length - s'.rem.length))⟩
    | .bref =>
      match s.cap with
      | none => []
      | some g =>
        match brefConsume ci g s.rem s.prev with
        | none => []
        | some (rest, last) => [⟨rest, last, s.cap, s.cap2⟩]

/-- Structural size of a pattern, used to budget matcher fuel. -/
def reSize : RE → Nat
  | .eps | .ch _ | .cls _ | .wb | .nlb _ | .bref => 1
  | .seq a b | .alt a b => reSize a + reSize b + 1
  | .star r | .grp r | .grp2 r => reSize r + 1

def bigFuel (re : RE) (s : List Char) : Nat :=
  (reSize re + 2) * (s.length + 2) * (s.length + 2)

/-- Python's match at one start position: length consumed and group 1 of the
backtracking-preferred parse, if any. -/
def tryAt (ci : Bool) (re : RE) (prev : Option Char) (s : List Char) :
    Option (Nat × Option (List Char) × Option (List Char)) :=
  match runRE ci (bigFuel re s) re ⟨s, prev, none, none⟩ with
  | [] => none
  | st :: _ => some (s.length - st.rem.length, st.cap, st.cap2)

/-- Leftmost match: group 1 of the first position where the pattern matches. -/
def reFirstGroup (ci : Bool) (re : RE) : Option Char → List Char → Option (Option (List Char))
  | prev, [] =>
    match tryAt ci re prev [] with
    | some (_, cap, _) => some cap
    | none => none
  | prev, c :: cs =>
    match tryAt ci re prev (c :: cs) with
    | some (_, cap, _) => some cap
    | none => reFirstGroup ci re (some c) cs

/-- Leftmost match: groups 1 and 2 of the first matching position. -/
def reFirstTwoGroups (ci : Bool) (re : RE) :
    Option Char → List Char → Option (Option (List Char) × Option (List Char))
  | prev, [] =>
    match tryAt ci re prev [] with
    | some (_, cap, cap2) => some (cap, cap2)
    | none => none
  | prev, c :: cs =>
    match tryAt ci re prev (c :: cs) with
    | some (_, cap, cap2) => some (cap, cap2)
    | none => reFirstTwoGroups ci re (some c) cs

/-- Python `re.search(...) is not None`. -/
def reSearch (ci : Bool) (re : RE) (s : List Char) : Bool :=
  (reFirstGroup ci re none s).isSome

/-- Python `re.sub`: leftmost non-overlapping matches replaced, scanning
resumed after each match (`repl` receives group 1).  Fuel is structural and
always sufficient (one unit per consumed character). -/
def reSubGo (ci : Bool) (re : RE) (repl : Option (List Char) → List Char) :
    Nat → Option Char → List Char → List Char
  | 0, _, s => s
  | f + 1, prev, s =>
    match tryAt ci re prev s with
    | some (len, cap, _) =>
      if len = 0 ∨ s = [] then
        match s with
        | [] => []
        | c :: cs => c :: reSubGo ci re repl f (some c) cs
      else
        repl cap ++ reSubGo ci re repl f (s.take len).getLast? (s.drop len)
    | none =>
      match s with
      | [] => []
      | c :: cs => c :: reSubGo ci re repl f (some c) cs

def reSub (ci : Bool) (re : RE) (repl : Option (List Char) → List Char)
    (s : List Char) : List Char :=
  reSubGo ci re repl (s.length + 1) none s

/-! Pattern-building helpers. -/

def reLit (s : List Char) : RE := s.foldr (fun c r => .seq (.ch c) r) .eps

def litS (s : String) : RE := reLit s.data

def anyOf (s : String) : RE := .cls fun c => s.data.contains c

/-- `\s` -/
def wsC : RE := .cls isSpaceChar

/-- `\d` -/
def digC : RE := .cls isDigitChar

def reOpt (r : RE) : RE := .alt r .eps

def reRep (r : RE) : Nat → RE
  | 0 => .eps
  | n + 1 => .seq r (reRep r n)

/-- `r{n,}` (greedy) -/
def atLeast (r : RE) (n : Nat) : RE := .seq (reRep r n) (.star r)

/-- `\s+` -/
def wsP : RE := atLeast wsC 1

/-- `\s*` -/
def wsS : RE := .star wsC

/-- `\d{m,n}` (greedy) -/
def digRange (m n : Nat) : RE := .seq (reRep digC m) (reRep (reOpt digC) (n - m))

def seqL (rs : List RE) : RE := rs.foldr .seq .eps

def altL : List RE → RE
  | [] => .eps
  | [r] => r
  | r :: rs => .alt r (altL rs)

/-! ### Transcript turns (the dicts consumed by the pipeline) -/

/-- A transcript turn: `speaker`/`text` as the pipeline reads them, and the
pass-through payloads `t0`/`t1`/`clinical` (of arbitrary type `α`). -/
structure Turn (α : Type) where
  speaker : Option String := none
  text : Option String := none
  t0 : Option α := none
  t1 : Option α := none
  clinical : Option α := none
deriving DecidableEq

/-! ### `api/utils/rule_extraction.py` -/

/-- A review-of-systems bucket value: a list of findings or a default note. -/
inductive RosVal where
  | items (l : List String)
  | note (s : String)
deriving DecidableEq

/-- `extract_from_transcript`'s result dict, with buckets in insertion order. -/
structure ExtractionResult where
  antecedentes : List (String × List String)
  revision_sistemas : List (String × RosVal)
  examen_fisico : List (String × String)
  alertas : List String
deriving DecidableEq

/-- `_join_text`: joins the stripped, non-empty turn texts with " . " and
lower-cases the result. -/
def joinText {α : Type} (turns : List (Turn α)) : List Char :=
  pyLower (joinSep " . ".data
    (((turns.map fun t => pyStrip (t.text.getD "").data).filter (· ≠ []))))

/-- `ta\s*(\d{2,3}\s*\/\s*\d{2,3})` -/
def taRe : RE := seqL [litS "ta", wsS, .grp (seqL [digRange 2 3, wsS, .ch '/', wsS, digRange 2 3])]

/-- `fc\s*(\d{2,3})` -/
def fcRe : RE := seqL [litS "fc", wsS, .grp (digRange 2 3)]

/-- `fr\s*(\d{2,3})` -/
def frRe : RE := seqL [litS "fr", wsS, .grp (digRange 2 3)]

/-- `(\b3[5-9](?:[.,]\d+)?)\s*°?c` -/
def tempRe : RE :=
  seqL [.grp (seqL [.wb, .ch '3', anyOf "56789", reOpt (seqL [anyOf ".,", atLeast digC 1])]),
        wsS, reOpt (.ch '°'), .ch 'c']

/-- `sato2\s*(\d{2,3})` -/
def satRe : RE := seqL [litS "sato2", wsS, .grp (digRange 2 3)]

/-- `sato2\s*(\d{2})` — the alert pattern (two digits only, no flags). -/
def satAlertRe : RE := seqL [litS "sato2", wsS, .grp (reRep digC 2)]

/-- `int` of a digit string. -/
def digitsToNat (g : List Char) : Nat :=
  g.foldl (fun acc c => 10 * acc + (c.toNat - 48)) 0

/-- Python `any(w in T for w in words)` used by the extractor's `has`. -/
def hasAny (T : List Char) (ws : List String) : Bool :=
  ws.any fun w => isSub w.data T

/-- The `antecedentes` bucket of `extract_from_transcript`. -/
def antecedentesOf (T : List Char) : List (String × List String) :=
  let meds : List String :=
    (if isSub "losart".data T then ["Losartán (en curso)"] else []) ++
    (if isSub "furosemida".data T then ["Furosemida (en curso)"] else []) ++
    (if isSub "ibuprofeno".data T then ["Ibuprofeno (reciente)"] else [])
  let pers : List String :=
    (if isSub "hipertens".data T then ["Hipertensión arterial"] else []) ++
    (if isSub "cardiopat".data T then ["Cardiopatía conocida"] else [])
  (if meds ≠ [] then [("farmacologicos", meds)] else []) ++
  (if pers ≠ [] then [("personales", pers)] else []) ++
  (if hasAny T ["sin alerg", "no alerg"] then [("alergias", ["Sin alergias conocidas"])] else [])

/-- The conditional buckets of `revision_sistemas`. -/
def rosBaseOf (T : List Char) : List (String × RosVal) :=
  let resp : List String :=
    (if hasAny T ["tos seca", "tos"] then ["Tos"] else []) ++
    (if hasAny T ["disnea", "falta de aire", "ahog", "dificultad para respirar"]
     then ["Disnea de esfuerzo"] else []) ++
    (if isSub "crepitantes".data T then ["Ruidos crepitantes"] else [])
  let cardio : List String :=
    (if hasAny T ["palpitaciones", "corazón muy rápido", "taquicardia"]
     then ["Palpitaciones"] else []) ++
    (if hasAny T ["edema", "hinchazón", "tobillos"] then ["Edema maleolar"] else [])
  let gen : List String := if hasAny T ["fiebre"] then ["Fiebre (niega en esta consulta)"] else []
  let gu : List String :=
    if hasAny T ["orino menos", "orino poco", "diuresis"] then ["Diuresis disminuida"] else []
  (if resp ≠ [] then [("respiratorio", RosVal.items resp)] else []) ++
  (if cardio ≠ [] then [("cardiovascular", RosVal.items cardio)] else []) ++
  (if gen ≠ [] then [("general", RosVal.items gen)] else []) ++
  (if gu ≠ [] then [("genitourinario", RosVal.items gu)] else [])

/-- `revision_sistemas` with the default neurologic/dermatologic notes. -/
def rosOf (T : List Char) : List (String × RosVal) :=
  let ros0 := rosBaseOf T
  ros0 ++
  (if (ros0.map Prod.fst).contains "neurologico" then []
   else [("neurologico", RosVal.note "Sin cefalea intensa ni déficit")]) ++
  (if (ros0.map Prod.fst).contains "dermatologico" then []
   else [("dermatologico", RosVal.note "Sin exantemas")])

/-- The `examen_fisico` bucket (label+number vitals patterns, findings). -/
def efOf (T : List Char) : List (String × String) :=
  (match reFirstGroup true taRe none T with
   | some (some g) => [("TA", String.mk (pyReplace " ".data [] g))]
   | _ => []) ++
  (match reFirstGroup true fcRe none T with
   | some (some g) => [("FC", String.mk g)]
   | _ => []) ++
  (match reFirstGroup true frRe none T with
   | some (some g) => [("FR", String.mk g)]
   | _ => []) ++
  (match reFirstGroup true tempRe none T with
   | some (some g) => [("Temp", String.mk (pyReplace ",".data ".".data g))]
   | _ => []) ++
  (match reFirstGroup true satRe none T with
   | some (some g) => [("SatO2", String.mk g)]
   | _ => []) ++
  (if isSub "crepitantes".data T
   then [("hallazgos", String.mk (pyStrip ("".data ++ " Crepitantes bibasales.".data)))]
   else [])

/-- The `alertas` bucket (danger phrases and the two-digit saturation rule). -/
def alertasOf (T : List Char) : List String :=
  (if hasAny T ["labios morados", "cianosis"] then ["Cianosis"] else []) ++
  (if hasAny T ["síncope", "sincope", "confusión", "confusion"]
   then ["Síncope/Confusión"] else []) ++
  (match reFirstGroup false satAlertRe none T with
   | some (some g) => if digitsToNat g < 90 then ["SatO2 < 90%"] else []
   | _ => [])

/-- `extract_from_transcript`. -/
def extract_from_transcript {α : Type} (transcript : List (Turn α)) : ExtractionResult :=
  let T := joinText transcript
  { antecedentes := antecedentesOf T
    revision_sistemas := rosOf T
    examen_fisico := efOf T
    alertas := alertasOf T }


/-! ### `api/template_router.py` -/

/-- `\bw\b` for a literal word. -/
def wbLit (w : String) : RE := seqL [.wb, litS w, .wb]

/-- The router's ASR-compensation substitution table `_NORMALIZE`
(pattern, replacement), in source order. -/
def _NORMALIZE : List (RE × String) :=
  [ (wbLit "toseca", "tos seca"),
    (seqL [.wb, litS "tos", wsS, litS "seca", .wb], "tos seca"),
    (seqL [.wb, litS "asculpaci", anyOf "oó", .ch 'n', .wb], "auscultación"),
    (seqL [.wb, litS "respiratoriale", reOpt (.ch 's'), .wb], "respiratoria"),
    (seqL [.wb, litS "disne", anyOf "ae", .wb], "disnea"),
    (wbLit "toras", "tórax"),
    (wbLit "torats", "tórax"),
    (seqL [.wb, litS "neumoni", anyOf "áa", .wb], "neumonía"),
    (seqL [.wb, litS "sibilanci", anyOf "ae", reOpt (.ch 's'), .wb], "sibilancias"),
    (seqL [.wb, litS "crepitante", reOpt (.ch 's'), .wb], "crepitantes"),
    (seqL [.wb, .grp (.alt (litS "ecg") (litS "electrocardiograma")), .wb], "ecg"),
    (seqL [.wb, .grp (seqL [litS "troponina", reOpt (.ch 's')]), .wb], "troponina"),
    (seqL [.wb, .grp (seqL [litS "opresi", anyOf "oó", .ch 'n']), wsP,
           .grp (.alt (seqL [litS "tor", anyOf "áa", litS "cica"]) (litS "pecho")), .wb],
     "opresión torácica"),
    (seqL [.wb, litS "presi", anyOf "oó", .ch 'n', .wb], "presión"),
    (wbLit "angor", "angina"),
    (wbLit "hba1c", "hbA1c"),
    (seqL [.wb, .ch '3', wsS, .ch 'd', anyOf "ií", litS "as", .wb], "tres días") ]

/-- The router's `_normalize_text`: pad and lower-case, apply `_NORMALIZE`
with spaces around each replacement, collapse whitespace and strip. -/
def _normalize_text (text : List Char) : List Char :=
  if text = [] then []
  else
    let s0 := ' ' :: (pyLower (pyStrip text) ++ [' '])
    let s1 := _NORMALIZE.foldl
      (fun acc pr => reSub true pr.1 (fun _ => (' ' :: pr.2.data) ++ [' ']) acc) s0
    pyStrip (reSub false wsP (fun _ => " ".data) s1)

/-- One entry of the router's `_RULES` table. -/
structure DomainRule where
  id : String
  weight : ℚ
  any : List RE
  bonus : List RE
  strong : List RE
  pubmed_q : String

def consultaRule : DomainRule :=
  { id := "consulta_general", weight := 1,
    any := [wbLit "consulta", wbLit "control", wbLit "chequeo",
            wbLit "malestar", wbLit "fiebre", wbLit "dolor"],
    bonus := [seqL [.wb, litS "cefale", anyOf "ao", reOpt (.ch 's'), .wb],
              wbLit "diarrea",
              seqL [.wb, .ch 'v', anyOf "oó", litS "mito", reOpt (.ch 's'), .wb],
              wbLit "resfriado", wbLit "anorexia", wbLit "astenia"],
    strong := [],
    pubmed_q := "primary care general symptoms fever pain" }

def respiratoriaRule : DomainRule :=
  { id := "respiratoria_aguda", weight := 135/100,
    any := [wbLit "tos", seqL [.wb, litS "tos seca", .wb],
            wbLit "disnea",
            seqL [.wb, litS "saturaci", anyOf "oó", .ch 'n', .wb],
            wbLit "respirar",
            seqL [.wb, litS "neumon", anyOf "ií", .ch 'a', .wb],
            seqL [.wb, .ch 't', anyOf "óo", litS "rax", .wb]],
    bonus := [seqL [.wb, litS "crepitante", reOpt (.ch 's'), .wb],
              seqL [.wb, litS "sibilancia", reOpt (.ch 's'), .wb],
              seqL [.wb, litS "auscultaci", anyOf "oó", .ch 'n', .wb],
              seqL [.wb, litS "rale", reOpt (.ch 's'), .wb],
              seqL [.wb, .grp (.alt (litS "base") (seqL [.ch 'l', anyOf "óo", litS "bulo"])),
                    wsP, .grp (.alt (litS "derecha") (litS "izquierda")), .wb],
              seqL [.wb, litS "radiograf", anyOf "ií", .ch 'a', wsP, litS "de", wsP,
                    .ch 't', anyOf "óo", litS "rax", .wb],
              wbLit "hemograma"],
    strong := [seqL [.wb, litS "neumon", anyOf "ií", .ch 'a', .wb],
               seqL [.wb, litS "sat", reOpt (seqL [litS "uraci", anyOf "oó", .ch 'n']),
                     wsS, reRep digC 2, wsS, reOpt (.ch '%'), .wb]],
    pubmed_q := "community acquired pneumonia acute cough dyspnea guideline" }

def dolorToracicoRule : DomainRule :=
  { id := "dolor_toracico", weight := 145/100,
    any := [seqL [.wb, litS "dolor", wsP, reOpt (seqL [litS "en", wsP]),
                  reOpt (seqL [litS "el", wsP]), litS "pecho", .wb],
            seqL [.wb, litS "opresi", anyOf "oó", .ch 'n', wsP,
                  litS "tor", anyOf "áa", litS "cica", .wb],
            wbLit "angina", wbLit "taquicardia",
            seqL [.wb, litS "disnea", wsP, litS "de", wsP, litS "esfuerzo", .wb]],
    bonus := [wbLit "ecg", wbLit "troponina", wbLit "timi", wbLit "heart",
              seqL [.wb, litS "irradia", reOpt (litS "do"), wsP,
                    reOpt (seqL [.ch 'a', wsP]),
                    .grp (.alt (litS "brazo") (seqL [litS "mand", anyOf "ií", litS "bula"])), .wb]],
    strong := [seqL [.wb, litS "dolor", wsP, litS "tor", anyOf "áa", litS "cico", wsP,
                     litS "opresivo", .wb],
               wbLit "ecg", wbLit "troponina"],
    pubmed_q := "chest pain risk stratification troponin HEART TIMI" }

def diabetesRule : DomainRule :=
  { id := "diabetes_control", weight := 125/100,
    any := [wbLit "glucosa",
            seqL [.wb, litS "hipergli", reOpt (.ch 'c'), litS "emia", .wb],
            wbLit "metformina", wbLit "insulina",
            seqL [.wb, litS "hb", reOpt (.ch ' '), litS "a1c", .wb],
            seqL [.wb, litS "hemoglobina", wsP, litS "glicosilada", .wb]],
    bonus := [seqL [.wb, litS "retinopat", anyOf "ií", .ch 'a', .wb],
              seqL [.wb, litS "nefropat", anyOf "ií", .ch 'a', .wb],
              seqL [.wb, litS "neuropat", anyOf "ií", .ch 'a', .wb],
              wbLit "ada",
              seqL [.wb, litS "pie", wsP, litS "diab", anyOf "eé", litS "tico", .wb]],
    strong := [seqL [.wb, litS "hb", reOpt (.ch ' '), litS "a1c", wsS, digC],
               seqL [.wb, litS "uso", wsP, litS "de", wsP, litS "insulina", .wb]],
    pubmed_q := "type 2 diabetes outpatient control A1c guideline ADA" }

def _RULES : List DomainRule :=
  [consultaRule, respiratoriaRule, dolorToracicoRule, diabetesRule]

/-- `_MIN_SCORE` -/
def _MIN_SCORE : ℚ := 12/10

/-- `PUBMED_MAX_BOOST` at its default (env `PUBMED_MAX_BOOST` unset). -/
def PUBMED_MAX_BOOST : ℚ := 35/100

/-- `_score_domain`: `(any + 0.5*bonus + 1.5*strong) * weight` with the
match counters (searches carry `re.IGNORECASE`). -/
def _score_domain (text : List Char) (r : DomainRule) : ℚ × (Nat × Nat × Nat) :=
  let base := (r.any.filter fun p => reSearch true p text).length
  let bonus := (r.bonus.filter fun p => reSearch true p text).length
  let strong := (r.strong.filter fun p => reSearch true p text).length
  (((base : ℚ) + (1/2) * bonus + (3/2) * strong) * r.weight, (base, bonus, strong))

/-- `_concat_transcript`: join non-blank turn texts, duplicating the first
tenth of DOCTOR turns. -/
def _concat_transcript {α : Type} (transcript : List (Turn α)) : List Char :=
  joinSep " ".data
    (transcript.flatMap fun t =>
      let txt := pyStrip (t.text.getD "").data
      if txt = [] then []
      else if (pyStrip (t.speaker.getD "").data).map pyUpperChar = "DOCTOR".data then
        [txt, txt.take (txt.length / 10)]
      else [txt])

/-- Python `round(x, 3)` (round half to even) modelled exactly on `ℚ`. -/
def roundHalfEven (x : ℚ) : ℤ :=
  if x - ⌊x⌋ < 1/2 then ⌊x⌋
  else if 1/2 < x - ⌊x⌋ then ⌊x⌋ + 1
  else if ⌊x⌋ % 2 = 0 then ⌊x⌋ else ⌊x⌋ + 1

def round3 (x : ℚ) : ℚ := (roundHalfEven (x * 1000) : ℚ) / 1000

/-- A ranking entry of `pick_schema_from_transcript` (the dict holding id,
rounded score, counters, weight and seed query; the booster adds
`pmid_count`/`pmid_boost`). -/
structure Cand where
  id : String
  score : ℚ
  base : Nat
  bonus : Nat
  strong : Nat
  weight : ℚ
  pubmed_q : String
  pmid_count : Option Nat := none
  pmid_boost : ℚ := 0
deriving DecidableEq

/-- Stable descending sort by score (Python `list.sort(key=score,
reverse=True)`), as an insertion sort. -/
def insertCandDesc (c : Cand) : List Cand → List Cand
  | [] => [c]
  | x :: xs => if x.score ≤ c.score then c :: x :: xs else x :: insertCandDesc c xs

def sortCandsDesc (l : List Cand) : List Cand := l.foldr insertCandDesc []

/-- The booster's soft-saturated boost:
`round(min(count/200, 1) * PUBMED_MAX_BOOST, 3)`. -/
def boostVal (n : Nat) : ℚ := round3 (min ((n : ℚ) / 200) 1 * PUBMED_MAX_BOOST)

/-- The booster's per-candidate update: the evidence-source count becomes
`boostVal` added to the score; a failed query (`none`) leaves the score
untouched with zero recorded boost. -/
def boostCand (counts : String → Option Nat) (c : Cand) : Cand :=
  if c.pubmed_q = "" then { c with pmid_count := some 0, pmid_boost := 0 }
  else
    match counts c.pubmed_q with
    | some n =>
      { c with pmid_count := some n, pmid_boost := boostVal n,
               score := round3 (c.score + boostVal n) }
    | none => { c with pmid_count := some 0, pmid_boost := 0 }

/-- `_pubmed_boost`: boost the two best candidates, then re-sort.  The
evidence source is modelled as `counts : String → Option ℕ` (`none` models a
raised exception / timeout). -/
def _pubmed_boost (enabled : Bool) (counts : String → Option Nat)
    (cands : List Cand) : List Cand :=
  if enabled then
    sortCandsDesc ((cands.take 2).map (boostCand counts) ++ cands.drop 2)
  else cands

def mkCand (text : List Char) (r : DomainRule) : Cand :=
  let sc := _score_domain text r
  { id := r.id, score := round3 sc.1, base := sc.2.1, bonus := sc.2.2.1,
    strong := sc.2.2.2, weight := r.weight, pubmed_q := r.pubmed_q }

/-- `pick_schema_from_transcript`'s returned dict (the `reason` string,
an f-string of score and threshold, is omitted). -/
structure PickResult where
  schema_id : String
  score : ℚ
  ranking : List Cand
  pubmed_boosted : Bool
deriving DecidableEq

/-- The preliminary ranking: every rule scored on the normalized transcript
text, sorted descending. -/
def pickRanking1 {α : Type} (transcript : List (Turn α)) : List Cand :=
  sortCandsDesc (_RULES.map (mkCand (_normalize_text (_concat_transcript transcript))))

/-- The final ranking: the preliminary one, PubMed-boosted when the toggle
is on. -/
def pickRanking2 {α : Type} (enabled : Bool) (counts : String → Option Nat)
    (transcript : List (Turn α)) : List Cand :=
  if enabled then _pubmed_boost enabled counts (pickRanking1 transcript)
  else pickRanking1 transcript

/-- The placeholder entry used when the ranking is empty. -/
def defaultCand : Cand :=
  { id := "consulta_general", score := 0, base := 0, bonus := 0, strong := 0,
    weight := 0, pubmed_q := "" }

/-- `pick_schema_from_transcript`, parametrised by the
`PUBMED_ROUTER_BOOST` toggle and the evidence source. -/
def pick_schema_from_transcript {α : Type} (enabled : Bool)
    (counts : String → Option Nat) (transcript : List (Turn α)) : PickResult :=
  let best := (pickRanking2 enabled counts transcript).head?.getD defaultCand
  { schema_id := if best.score < _MIN_SCORE then "consulta_general" else best.id
    score := best.score
    ranking := (pickRanking2 enabled counts transcript).take 6
    pubmed_boosted := enabled }


/-! ### `api/utils/_clinical_cleanup_orig.py` -/

/-- `NORMALIZATION_MAP` (ASR mishear → canonical form), in source order. -/
def NORMALIZATION_MAP : List (RE × String) :=
  [ (wbLit "toseca", "tos seca"),
    (seqL [.wb, litS "tos", wsS, litS "seca", .wb], "tos seca"),
    (seqL [.wb, litS "asculpaci", anyOf "oó", .ch 'n', .wb], "auscultación"),
    (seqL [.wb, .grp (seqL [litS "respiratorial", reOpt (litS "es")]), .wb], "respiratoria"),
    (seqL [.wb, litS "disney", anyOf "ae", .wb], "disnea"),
    (wbLit "ensamen", "examen"),
    (wbLit "ensana", "examen"),
    (seqL [.wb, reOpt (.grp (litS "para")), .ch 'c', anyOf "ei", litS "tam",
           atLeast (.ch 'o') 1, .ch 'l', .wb], "paracetamol"),
    (wbLit "tamol", "paracetamol"),
    (seqL [.wb, litS "par", wsS, litS "de", wsS, litS "tamol", .wb], "paracetamol"),
    (seqL [.wb, litS "neumoni", anyOf "aá", .wb], "neumonía"),
    (seqL [.wb, .nlb (fun c => c = 'd'), litS "olor", .wb], "dolor"),
    (seqL [.wb, litS "hemogram",
           altL [litS "as", litS "os", litS "a", litS "o"], .wb], "hemograma"),
    (seqL [.wb, anyOf "dt", litS "oras", .wb], "tórax"),
    (wbLit "torax", "tórax"),
    (altL [seqL [.wb, litS "sibilanci", .alt (litS "a") (litS "as")],
           litS "civilancias",
           seqL [reOpt (.ch 'c'), litS "vilancias", .wb]], "sibilancias"),
    (seqL [.wb, litS "ojens", reOpt (litS "es"), .wb], "urgencias"),
    (seqL [.wb, anyOf "bv", litS "aso", .wb], "base"),
    (seqL [.wb, litS "der", reOpt (.ch 'e'), litS "cha", .wb], "derecha"),
    (seqL [.wb, litS "izq", reOpt (.ch 'u'), litS "ierda", .wb], "izquierda"),
    (wbLit "hebre", "fiebre"),
    (seqL [.wb, litS "preci", anyOf "oó", .ch 'n', .wb], "presión"),
    (wbLit "precion", "presión"),
    (seqL [.wb, litS "peraci", anyOf "oó", .ch 'n', .wb], "presión"),
    (seqL [.wb, reOpt (anyOf "pf"), litS "recuen", anyOf "cs", litS "ia", .wb], "frecuencia"),
    (seqL [.wb, litS "cardeac", anyOf "ao", .wb], "cardíaca"),
    (seqL [.wb, litS "card", anyOf "ií", litS "aco", .wb], "cardíaco"),
    (seqL [.wb, litS "radi", anyOf "oó", litS "rica", .wb], "radiografía"),
    (seqL [.wb, litS "radi", anyOf "oó", litS "graf", anyOf "íi", .ch 'a', wsP,
           litS "de", wsP, litS "toda", reOpt (.ch 's'), .wb], "radiografía de tórax"),
    (seqL [.wb, litS "radi", anyOf "oó", litS "graf", anyOf "íi", .ch 'a', wsP,
           litS "de", wsP, litS "tor", anyOf "aá", .ch 'x', .wb], "radiografía de tórax"),
    (seqL [.wb, litS "radi", anyOf "oó", litS "graf", anyOf "íi", .ch 'a', wsP,
           litS "de", wsP, .ch 't', anyOf "óo", litS "rax", .wb], "radiografía de tórax"),
    (seqL [.wb, litS "falta", wsP, litS "de", wsP, litS "alegr", anyOf "ií", .ch 'a', .wb],
     "falta de aire"),
    (seqL [.wb, .ch 'd', anyOf "ei", litS "snea", wsP, litS "intens", reOpt (.ch 'a'), .wb],
     "disnea intensa") ]

/-- One full pass of `NORMALIZATION_MAP` substitutions (each replacement is
padded with spaces, flags `re.IGNORECASE`). -/
def applyNormMap (cur : List Char) : List Char :=
  NORMALIZATION_MAP.foldl
    (fun acc pr => reSub true pr.1 (fun _ => (' ' :: pr.2.data) ++ [' ']) acc) cur

/-- The bounded stabilisation loop of `_normalize_text_recursively`: apply
the map, stop once a pass changes nothing, at most `fuel` (5) passes. -/
def normPasses : Nat → List Char → List Char
  | 0, cur => cur
  | f + 1, cur =>
    let nxt := applyNormMap cur
    if nxt = cur then nxt else normPasses f nxt

/-- `_normalize_text_recursively`: lower-case and pad, stabilise the mishear
map, collapse whitespace, strip, capitalise; empty results become `None`. -/
def _normalize_text_recursively (text : Option String) : Option String :=
  match text with
  | none => none
  | some t =>
    if t.data = [] then some t
    else
      let cur0 := ' ' :: (pyLower (pyStrip t.data) ++ [' '])
      let cur1 := pyStrip (reSub false wsP (fun _ => " ".data) (normPasses 5 cur0))
      match cur1 with
      | [] => none
      | c :: cs => some (String.mk (pyUpperChar c :: cs))

/-- `(\d+(?:[.,]\d+)?)` -/
def numRe : RE := .grp (seqL [atLeast digC 1, reOpt (seqL [anyOf ".,", atLeast digC 1])])

/-- Exact value of a decimal literal (digits with at most one `.`). -/
def parseDecQ (g : List Char) : ℚ :=
  match g.splitOn '.' with
  | [ip] => (digitsToNat ip : ℚ)
  | [ip, fp] => (digitsToNat ip : ℚ) + (digitsToNat fp : ℚ) / (10 : ℚ) ^ fp.length
  | _ => 0

/-- `parse_number`: first number in the string, comma read as decimal dot. -/
def parse_number (text : Option String) : Option ℚ :=
  match text with
  | none => none
  | some t =>
    if t.data = [] then none
    else
      match reFirstGroup false numRe none t.data with
      | some (some g) => some (parseDecQ (pyReplace ",".data ".".data g))
      | _ => none

/-- `(\d+(?:[.,]\d+)?)\s*/\s*(\d+(?:[.,]\d+)?)` -/
def bpSlashRe : RE := seqL [numRe, wsS, .ch '/', wsS, .grp2 (seqL [atLeast digC 1, reOpt (seqL [anyOf ".,", atLeast digC 1])])]

/-- `(\d+(?:[.,]\d+)?)\s+(\d+(?:[.,]\d+)?)` (the space-separated fallback) -/
def bpSpaceRe : RE := seqL [numRe, wsP, .grp2 (seqL [atLeast digC 1, reOpt (seqL [anyOf ".,", atLeast digC 1])])]

/-- `parse_blood_pressure`'s text preparation: lower-case, rewrite
"sobre"/"x"/"-" to "/", collapse whitespace. -/
def bpPrepared (t : String) : List Char :=
  reSub false wsP (fun _ => " ".data)
    (pyReplace "-".data "/".data
      (pyReplace "x".data "/".data
        (pyReplace "sobre".data "/".data (pyLower t.data))))

/-- The systolic/diastolic pair `parse_blood_pressure` reads, before its
range validation. -/
def parse_bp_pair (t : String) : Option (ℚ × ℚ) :=
  match reFirstTwoGroups false bpSlashRe none (bpPrepared t) with
  | some (some g1, some g2) =>
    some (parseDecQ (pyReplace ",".data ".".data g1),
          parseDecQ (pyReplace ",".data ".".data g2))
  | _ =>
    match reFirstTwoGroups false bpSpaceRe none (bpPrepared t) with
    | some (some g1, some g2) =>
      some (parseDecQ (pyReplace ",".data ".".data g1),
            parseDecQ (pyReplace ",".data ".".data g2))
    | _ => none

/-- `parse_blood_pressure`: the parsed pair, kept only inside the plausible
ranges (systolic 50–260, diastolic 30–160). -/
def parse_blood_pressure (text : Option String) : Option (ℚ × ℚ) :=
  match text with
  | none => none
  | some t =>
    if t.data = [] then none
    else
      match parse_bp_pair t with
      | some (sbp, dbp) =>
        if 50 ≤ sbp ∧ sbp ≤ 260 ∧ 30 ≤ dbp ∧ dbp ≤ 160 then some (sbp, dbp) else none
      | none => none

/-- `str(int(...))` for the non-negative integers the vitals produce. -/
def intStr (n : ℤ) : List Char := Nat.toDigits 10 n.toNat

/-- `f"{tp:.1f}"` followed by `.rstrip("0").rstrip(".")`. -/
def fmt1 (x : ℚ) : List Char :=
  let tenths := roundHalfEven (x * 10)
  let whole := intStr (tenths / 10)
  let frac := (tenths % 10).toNat
  let raw := whole ++ ['.'] ++ Nat.toDigits 10 frac
  (((raw.reverse.dropWhile (· = '0')).dropWhile (· = '.'))).reverse

/-- The `examen_fisico` dict as `normalize_vitals` reads and writes it
(`none` = key absent or `None`). -/
structure EF where
  TA : Option String := none
  FC : Option String := none
  FR : Option String := none
  Temp : Option String := none
  SatO2 : Option String := none
  hallazgos : Option String := none
  otros : Option String := none
deriving DecidableEq

/-- `normalize_vitals`: validate each vital against its plausible range,
dropping (setting to `None`) anything unparseable or out of range; free-text
findings go through the mishear normalizer. -/
def normalize_vitals (ef : EF) : EF :=
  { TA :=
      match parse_blood_pressure ef.TA with
      | some bp => some (String.mk (intStr (roundHalfEven bp.1) ++ ['/'] ++ intStr (roundHalfEven bp.2)))
      | none => none
    FC :=
      match parse_number ef.FC with
      | some fc => if 20 ≤ fc ∧ fc ≤ 220 then some (String.mk (intStr (roundHalfEven fc))) else none
      | none => none
    FR :=
      match parse_number ef.FR with
      | some fr => if 6 ≤ fr ∧ fr ≤ 60 then some (String.mk (intStr (roundHalfEven fr))) else none
      | none => none
    Temp :=
      match parse_number ef.Temp with
      | some tp => if 30 ≤ tp ∧ tp ≤ 43 then some (String.mk (fmt1 tp)) else none
      | none => none
    SatO2 :=
      match parse_number ef.SatO2 with
      | some sat => if 50 ≤ sat ∧ sat ≤ 100 then some (String.mk (intStr (roundHalfEven sat))) else none
      | none => none
    hallazgos :=
      match ef.hallazgos with
      | some h => if h.data ≠ [] then _normalize_text_recursively (some h) else some h
      | none => none
    otros :=
      match ef.otros with
      | some h => if h.data ≠ [] then _normalize_text_recursively (some h) else some h
      | none => none }


/-! ### `api/utils/_text_normalizer_orig.py` -/

def pyUpper (s : List Char) : List Char := s.map pyUpperChar

/-- The class `[a-zA-ZáéíóúñÑ]` of the repetition patterns. -/
def repLetter (c : Char) : Bool :=
  isAsciiLetter c ∨ c = 'á' ∨ c = 'é' ∨ c = 'í' ∨ c = 'ó' ∨ c = 'ú' ∨ c = 'ñ' ∨ c = 'Ñ'

/-- The class `[a-záéíóúñ]` of `clean_text`'s letter-repetition pattern. -/
def repLetterLower (c : Char) : Bool :=
  ('a' ≤ c ∧ c ≤ 'z') ∨ c = 'á' ∨ c = 'é' ∨ c = 'í' ∨ c = 'ó' ∨ c = 'ú' ∨ c = 'ñ'

/-- `\s+` → `" "` (SPACE_RX). -/
def spaceRx : RE := wsP

/-- `\s+([,.;:!?])` (PUNCT_RX). -/
def punctRx : RE := seqL [wsP, .grp (anyOf ",.;:!?")]

/-- `([,.;:!?])\1+` (PUNCT_DUP_RX). -/
def punctDupRx : RE := seqL [.grp (anyOf ",.;:!?"), atLeast .bref 1]

/-- `\s*([–—-])\s*` (DASH_SPACE_RX). -/
def dashSpaceRx : RE := seqL [wsS, .grp (anyOf "–—-"), wsS]

/-- `[“”]` (QUOTE_RX). -/
def quoteRx : RE := .cls fun c => c = '“' ∨ c = '”'

/-- `\b([a-zA-ZáéíóúñÑ])(?:\s+\1){2,}\b` (ISOLATED_LETTERS_RX, `re.I`). -/
def isolatedLettersRx : RE :=
  seqL [.wb, .grp (.cls repLetter), atLeast (seqL [wsP, .bref]) 2, .wb]

/-- `\b([a-zA-ZáéíóúñÑ]{1,2})\b(?:\s+\1\b){2,}` (SHORT_TOKEN_REP_RX, `re.I`). -/
def shortTokenRepRx : RE :=
  seqL [.wb, .grp (seqL [.cls repLetter, reOpt (.cls repLetter)]), .wb,
        atLeast (seqL [wsP, .bref, .wb]) 2]

/-- `\b([a-zA-ZáéíóúñÑ]{3,})\b(?:\s+\1\b){2,}` (WORD_TRIPLE_RX, `re.I`). -/
def wordTripleRx : RE :=
  seqL [.wb, .grp (atLeast (.cls repLetter) 3), .wb,
        atLeast (seqL [wsP, .bref, .wb]) 2]

/-- `clean_inline_repetitions`: collapse stuttered letters, short tokens and
triplicated words to a single occurrence. -/
def clean_inline_repetitions (t : List Char) : List Char :=
  reSub true wordTripleRx (fun g => g.getD [])
    (reSub true shortTokenRepRx (fun g => g.getD [])
      (reSub true isolatedLettersRx (fun g => g.getD []) t))

/-- Python `str.isalpha` on the alphabet in scope. -/
def pyIsAlpha (c : Char) : Bool := isLetterChar c

/-- Python `str.islower` on the alphabet in scope. -/
def pyIsLower (c : Char) : Bool :=
  ('a' ≤ c ∧ c ≤ 'z') ∨ c = 'á' ∨ c = 'é' ∨ c = 'í' ∨ c = 'ó' ∨ c = 'ú' ∨ c = 'ñ' ∨ c = 'ü'

/-- `normalize_text`: quotes, dash spacing, repetition cleanup, punctuation
and whitespace normalization, soft capitalization. -/
def normalize_text (text : List Char) : List Char :=
  if text = [] then text
  else
    let t0 := pyStrip text
    let t1 := reSub false quoteRx (fun _ => "\"".data) t0
    let t2 := reSub false dashSpaceRx (fun g => ' ' :: (g.getD [] ++ [' '])) t1
    let t3 := clean_inline_repetitions t2
    let t4 := reSub false punctDupRx (fun g => g.getD []) t3
    let t5 := reSub false punctRx (fun g => g.getD []) t4
    let t6 := pyStrip (reSub false spaceRx (fun _ => " ".data) t5)
    match t6 with
    | c :: c2 :: cs => if pyIsAlpha c then pyUpperChar c :: c2 :: cs else t6
    | _ => t6

/-- `\b([a-záéíóúñ])(?:\s+\1){2,}\b` (`clean_text`, `re.I`). -/
def ctLetterRx : RE :=
  seqL [.wb, .grp (.cls repLetterLower), atLeast (seqL [wsP, .bref]) 2, .wb]

/-- `\b(\w{2,})(?:\s+\1){1,}\b` (`clean_text`, `re.I`). -/
def ctWordRx : RE :=
  seqL [.wb, .grp (atLeast (.cls isWordChar) 2), atLeast (seqL [wsP, .bref]) 1, .wb]

/-- `([!?.,;:])\1{1,}` (`clean_text`). -/
def ctPunctDupRx : RE := seqL [.grp (anyOf "!?.,;:"), atLeast .bref 1]

/-- `([(\[]) +` (`clean_text`). -/
def ctOpenRx : RE := seqL [.grp (anyOf "([" ), atLeast (.ch ' ') 1]

/-- ` +([)\]])` (`clean_text`). -/
def ctCloseRx : RE := seqL [atLeast (.ch ' ') 1, .grp (anyOf ")]")]

/-- `clean_text`: the compact legacy cleanup layer. -/
def clean_text (t : List Char) : List Char :=
  let t0 := pyStrip t
  let t1 := reSub false wsP (fun _ => " ".data) t0
  let t2 := reSub true ctLetterRx (fun g => g.getD []) t1
  let t3 := reSub true ctWordRx (fun g => g.getD []) t2
  let t4 := reSub false ctPunctDupRx (fun g => g.getD []) t3
  let t5 := reSub false punctRx (fun g => g.getD []) t4
  let t6 := reSub false ctOpenRx (fun g => g.getD []) t5
  let t7 := reSub false ctCloseRx (fun g => g.getD []) t6
  match t7 with
  | c :: cs => if pyIsLower c then pyUpperChar c :: cs else t7
  | [] => []

/-- `normalize_spanish_clinical`: both cleanup layers plus a final
repetition pass and strip. -/
def normalize_spanish_clinical (s : String) : String :=
  if s.data = [] then s
  else String.mk (pyStrip (clean_inline_repetitions (clean_text (normalize_text s.data))))

/-- `normalize_transcript_turns`: normalize speaker and text per turn,
keeping `t0`/`t1`/`clinical`. -/
def normalize_transcript_turns {α : Type} (turns : List (Turn α)) : List (Turn α) :=
  turns.map fun t =>
    { speaker :=
        some (match pyUpper (pyStrip (t.speaker.getD "").data) with
              | [] => "OTRO"
              | spk => String.mk spk)
      text := some (normalize_spanish_clinical (t.text.getD ""))
      t0 := t.t0
      t1 := t.t1
      clinical := t.clinical }


/-! ### `api/utils/augmentation.py` -/

/-- `_strip_accents` (NFD + drop combining marks, ñ→n) on the alphabet in
scope. -/
def stripAccentChar (c : Char) : Char :=
  if c = 'á' then 'a' else if c = 'é' then 'e' else if c = 'í' then 'i'
  else if c = 'ó' then 'o' else if c = 'ú' then 'u' else if c = 'ü' then 'u'
  else if c = 'ñ' then 'n'
  else if c = 'Á' then 'A' else if c = 'É' then 'E' else if c = 'Í' then 'I'
  else if c = 'Ó' then 'O' else if c = 'Ú' then 'U' else if c = 'Ü' then 'U'
  else if c = 'Ñ' then 'N' else c

def _strip_accents (s : List Char) : List Char := s.map stripAccentChar

/-- `_norm`: lower-case, fold accents, strip. -/
def _norm (s : List Char) : List Char := pyStrip (_strip_accents (pyLower s))

/-- The tokenizer class `[\wáéíóúñü]` of `_SPLIT`. -/
def tokChar (c : Char) : Bool := isWordChar c

/-- `_toks`: split `_norm s` on non-word runs, drop empties and stop-words. -/
def _toks (s : List Char) (stop : List String) : List (List Char) :=
  (((_norm s).splitOnP (fun c => ¬ tokChar c)).filter (· ≠ [])).filter
    (fun t => ¬ stop.any (fun w => w.data = t))

/-- `_contains_any`: any keyword a substring of the normalized text. -/
def _contains_any (text : List Char) (kws : List String) : Bool :=
  kws.any fun kw => isSub kw.data (_norm text)

/-- The bilingual stop-word set `STOP`. -/
def STOP : List String :=
  ["de","la","el","y","o","en","para","con","sin","por","del","al","los","las","un",
   "una","que","como","es","son",
   "the","of","and","or","in","to","for","by","on","from","at","an","a","is","are",
   "was","were","be","being",
   "patient","patients","study","trial","randomized","review","case","report",
   "series","cohort","clinic","hospital",
   "adult","adults","child","children","pediatric","male","female","year","years",
   "aged","data","analysis"]

/-- `NEGATIVE_DOMAINS`: specialties treated as noise. -/
def NEGATIVE_DOMAINS : List String :=
  ["dementia","alzheimer","bariatric","dermatology","psoriasis","atopic",
   "ophthalmology","glaucoma","orthopedic","arthro","urology","prostate","erectile",
   "psychiatry","obsessive","trichotillomania","toxic oil","toxic-oil",
   "gastrojejunostomy","bypass","biliary","colorectal","breast cancer","prostate cancer"]

/-- `DEFAULT_MIN_SCORE` -/
def DEFAULT_MIN_SCORE : ℚ := 30/100

/-- `STRICT_INFLUENZA_FACTOR` -/
def STRICT_INFLUENZA_FACTOR : ℚ := 75/100

/-- `SCHEMA_SEEDS` -/
def SCHEMA_SEEDS (id : String) : List String :=
  if id = "respiratoria_aguda" then
    ["community acquired pneumonia", "pneumonia", "cap",
     "respiratory infection", "bronchitis", "bronchi", "tos", "disnea",
     "saturacion", "hipoxemia", "pulmon", "respiratoria", "crepitantes", "rales",
     "auscultacion", "o2", "covid", "influenza", "rsv"]
  else if id = "dolor_toracico" then
    ["chest pain","dolor toracico","infarto","acs","troponina","ecg","timi","heart score"]
  else if id = "consulta_general" then
    ["fiebre","dolor","cefalea","gastroenteritis","vomito","diarrea","resfriado"]
  else []

/-- `REQUIRED_BY_SCHEMA` -/
def REQUIRED_BY_SCHEMA (id : String) : List String :=
  if id = "respiratoria_aguda" then
    ["neumon", "bronqui", "respir", "tos", "disnea", "cap", "pulmon", "o2", "satur"]
  else []

/-- A corpus record (one JSONL line of the local PubMed corpus). -/
structure PubRec where
  pmid : String := ""
  id : String := ""
  title : String := ""
  abstract : String := ""
  mesh : List String := []
  keywords : List String := []
  year : Option Int := none
deriving DecidableEq

/-- `str(rec.get("pmid") or rec.get("id") or "")` -/
def pmidOf (rec : PubRec) : String := if rec.pmid = "" then rec.id else rec.pmid

/-- `_rec_text`: title, abstract, mesh and keywords joined by spaces. -/
def _rec_text (rec : PubRec) : List Char :=
  joinSep " ".data
    [rec.title.data, rec.abstract.data,
     joinSep " ".data (rec.mesh.map (·.data)),
     joinSep " ".data (rec.keywords.map (·.data))]

/-- An order entry (`{codigo, detalle}`). -/
structure Orden where
  codigo : Option String := none
  detalle : Option String := none
deriving DecidableEq

/-- The clinical JSON record as the augmentation stage reads it. -/
structure CRecord where
  motivo_consulta : Option String := none
  enfermedad_actual : Option String := none
  impresion_dx : List String := []
  examen_fisico : EF := {}
  ordenes : List Orden := []
  alertas : List String := []
  edad : Option ℚ := none
  age : Option ℚ := none
deriving DecidableEq

/-- `j.get("edad") or j.get("age")` (0 is falsy). -/
def effectiveEdad (j : CRecord) : Option ℚ :=
  match j.edad with
  | some e => if e = 0 then j.age else some e
  | none => j.age

/-- `build_query_from_json`: record text plus the domain's seed terms. -/
def build_query_from_json (j : CRecord) (schema_used : Option String) : List Char :=
  let motivo := (j.motivo_consulta.getD "").data
  let ea_text := (j.enfermedad_actual.getD "").data
  let imp := joinSep " ".data (j.impresion_dx.map (·.data))
  let ef := j.examen_fisico
  let vitals := joinSep " ".data
    [(ef.TA.getD "").data, (ef.Temp.getD "").data, (ef.FC.getD "").data,
     (ef.FR.getD "").data, (ef.SatO2.getD "").data]
  let rx := joinSep " ".data (j.ordenes.map fun o => (o.detalle.getD "").data)
  let base := pyStrip (joinSep " ".data [motivo, ea_text, imp, vitals, rx])
  let seeds := SCHEMA_SEEDS (schema_used.getD "")
  pyStrip (base ++ " ".data ++ joinSep " ".data (seeds.map (·.data)))

/-- `re.findall` count for the alternation of the (escaped) required roots:
leftmost non-overlapping matches, first root preferred. -/
def firstRootPrefix (roots : List String) (s : List Char) : Option String :=
  roots.find? fun r => s.take r.data.length = r.data ∧ r.data ≠ []

def countRootsGo (roots : List String) : Nat → List Char → Nat
  | 0, _ => 0
  | _ + 1, [] => 0
  | f + 1, c :: cs =>
    match firstRootPrefix roots (c :: cs) with
    | some r => 1 + countRootsGo roots f ((c :: cs).drop r.data.length)
    | none => countRootsGo roots f cs

def countRootHits (roots : List String) (s : List Char) : Nat :=
  countRootsGo roots (s.length + 1) s

/-- The adult test of the corpus scan (threshold 18). -/
def scanIsAdult (j : CRecord) : Bool :=
  match effectiveEdad j with
  | some e => 18 ≤ e
  | none => false

def scanIsChild (j : CRecord) : Bool :=
  match effectiveEdad j with
  | some e => e < 18
  | none => false

/-- The hard filters of `retrieve_similar_cases`, returning the document
tokens and required-root hit count for records that survive. -/
def recFilter (j : CRecord) (query : List Char) (reqRoots : List String)
    (rec : PubRec) : Option (List (List Char) × Nat) :=
  let raw_norm := _norm (_rec_text rec)
  let title_norm := pyLower rec.title.data
  if scanIsAdult j ∧ (isSub "pediatric".data title_norm ∨ isSub "child".data title_norm ∨
      isSub "children".data title_norm) then none
  else if scanIsChild j ∧ (isSub "adult".data title_norm ∨ isSub "elderly".data title_norm)
    then none
  else
    let respir_hits := if reqRoots ≠ [] then countRootHits reqRoots raw_norm else 0
    if reqRoots ≠ [] ∧ respir_hits = 0 then none
    else
      let neg_hit := NEGATIVE_DOMAINS.any fun nd => isSub (pyLower nd.data) raw_norm
      let neg_in_query := NEGATIVE_DOMAINS.any fun nd => isSub (pyLower nd.data) (_norm query)
      if neg_hit ∧ ¬ neg_in_query then none
      else
        let dtoks := _toks raw_norm STOP
        if dtoks = [] then none else some (dtoks, respir_hits)

/-- The corpus scan: pmid-deduplication plus the hard filters, in corpus
order. -/
def collectDocs (j : CRecord) (query : List Char) (reqRoots : List String) :
    List PubRec → List String → List (List (List Char) × PubRec × Nat)
  | [], _ => []
  | rec :: rest, seen =>
    let pmid := pmidOf rec
    if pmid = "" ∨ pmid ∈ seen then collectDocs j query reqRoots rest seen
    else
      match recFilter j query reqRoots rec with
      | some (dtoks, hits) => (dtoks, rec, hits) :: collectDocs j query reqRoots rest (pmid :: seen)
      | none => collectDocs j query reqRoots rest (pmid :: seen)

/-- The document frequency the scan accumulates (`df.get(t, 1)`). -/
def dfOf (docs : List (List (List Char))) (t : List Char) : Nat :=
  match (docs.filter (fun d => t ∈ d)).length with
  | 0 => 1
  | n => n


section Scoring

variable {F : Type} [LinearOrderedField F] [FloorRing F]

/-- Python `round(x, 3)` over the score field. -/
def roundHalfEvenF (x : F) : ℤ :=
  if x - ⌊x⌋ < 1/2 then ⌊x⌋
  else if 1/2 < x - ⌊x⌋ then ⌊x⌋ + 1
  else if ⌊x⌋ % 2 = 0 then ⌊x⌋ else ⌊x⌋ + 1

def round3F (x : F) : F := ((roundHalfEvenF (x * 1000) : ℤ) : F) / 1000

/-- `_idf` with the logarithm supplied as a parameter (Python `math.log`). -/
def _idf (log : F → F) (N df : Nat) : F :=
  log (1 + ((N : F) - (df : F) + 1/2) / ((df : F) + 1/2))

/-- `_bm25` (k1 = 1.2, b = 0.75, fixed avgdl = 200). -/
def _bm25 (log : F → F) (q d : List (List Char)) (dfm : List Char → Nat) (N : Nat) : F :=
  if q = [] ∨ d = [] then 0
  else
    (q.eraseDups).foldl
      (fun acc t =>
        let f := d.count t
        if f = 0 then acc
        else acc + _idf log N (dfm t) * ((f : F) * (12/10 + 1)) /
          ((f : F) + 12/10 * (1 - 3/4 + 3/4 * (d.length : F) / 200)))
      0

/-- Stable descending insertion by score for scored records. -/
def insertScoredDesc (c : F × PubRec) : List (F × PubRec) → List (F × PubRec)
  | [] => [c]
  | x :: xs => if x.1 ≤ c.1 then c :: x :: xs else x :: insertScoredDesc c xs

def sortScoredDesc (l : List (F × PubRec)) : List (F × PubRec) := l.foldr insertScoredDesc []

/-- One returned evidence record (`{pmid, title, year, abstract, score, url}`). -/
structure Evid (F : Type) where
  pmid : String
  title : String
  year : Option Int
  abstract : String
  score : F
  url : Option String
deriving DecidableEq

def mkEvid (sc : F) (rec : PubRec) : Evid F :=
  { pmid := pmidOf rec
    title := rec.title
    year := rec.year
    abstract := rec.abstract
    score := round3F sc
    url := if pmidOf rec = "" then none
           else some ("https://pubmed.ncbi.nlm.nih.gov/" ++ pmidOf rec ++ "/") }

/-- The output loop of `retrieve_similar_cases`: skip scores below the
threshold, stop once `k` records are emitted. -/
def emitOut (minS : F) (k : Nat) : List (F × PubRec) → List (Evid F)
  | [] => []
  | (sc, rec) :: rest =>
    if sc < minS then emitOut minS k rest
    else mkEvid sc rec :: (if k ≤ 1 then [] else emitOut minS (k - 1) rest)

/-- `retrieve_similar_cases` over an explicit corpus (the JSONL file) and
logarithm. -/
def retrieve_similar_cases (log : F → F) (corpus : List PubRec) (j : CRecord)
    (schema_used : Option String) (k : Nat) : List (Evid F) :=
  let query := build_query_from_json j schema_used
  let qtoks := _toks query STOP
  if qtoks = [] then []
  else
    let reqRoots := REQUIRED_BY_SCHEMA (schema_used.getD "")
    let docs := collectDocs j query reqRoots corpus []
    if docs = [] then []
    else
      let N := docs.length
      let dfm := dfOf (docs.map (·.1))
      let scored := docs.filterMap fun dtr =>
        let s0 := _bm25 log qtoks dtr.1 dfm N
        let s := if dtr.2.2 ≠ 0 then s0 * (1 + min (1/2) (3/20 * (dtr.2.2 : F))) else s0
        if s > 1/20 then some (s, dtr.2.1) else none
      let minScore : F :=
        if ((schema_used.getD "").data.take 12 = "respiratoria".data) then 33/100 else 2/10
      emitOut minScore k (sortScoredDesc scored)

/-- One provenance entry (`{pmid, title, score, url}`). -/
structure Prov (F : Type) where
  pmid : String
  title : String
  score : F
  url : Option String
deriving DecidableEq

/-- `_age_filter_provenance` (adult threshold 16 here). -/
def _age_filter_provenance (prov : List (Prov F)) (edad : Option ℚ) : List (Prov F) :=
  match prov with
  | [] => []
  | _ =>
    match edad with
    | none => prov
    | some e =>
      if 16 ≤ e then
        prov.filter fun p => ¬ _contains_any p.title.data
          ["pediatric","children","child","infant","adolescent","paediatric"]
      else
        prov.filter fun p => ¬ _contains_any p.title.data ["adult","elderly","geriatric"]

/-- `_apply_min_score_filter` (`None` disables the filter). -/
def _apply_min_score_filter (prov : List (Prov F)) (min_score : Option F) : List (Prov F) :=
  match prov with
  | [] => []
  | _ =>
    match min_score with
    | none => prov
    | some ms => prov.filter fun p => ms ≤ p.score

/-- `max((p.get("score") or 0.0) for p in provenance)` on a non-empty list. -/
def maxScore (prov : List (Prov F)) : F :=
  match prov with
  | [] => 0
  | p :: rest => rest.foldl (fun acc x => max acc x.score) p.score

/-- `_allow_influenza_bias`: influenza is allowed only when the clinical
text mentions it or a top-5 record's title carries it with a score at or
above 75% of the best provenance score. -/
def _allow_influenza_bias (j : CRecord) (provenance : List (Prov F)) : Bool :=
  let texto := _norm (joinSep " ".data
    [(j.motivo_consulta.getD "").data,
     (j.enfermedad_actual.getD "").data,
     joinSep " ".data (j.impresion_dx.map (·.data))])
  if _contains_any texto ["influenza", "gripe"] then true
  else if provenance = [] then false
  else
    let threshold := maxScore provenance * (75/100 : F)
    (provenance.take 5).any fun p =>
      isSub "influenza".data (_norm p.title.data) ∧ threshold ≤ p.score

/-- The autocompletion suggestions dict (each key optional). -/
structure Sug where
  enfermedad_actual : Option String := none
  impresion_dx : Option (List String) := none
  ordenes : Option (List Orden) := none
  alertas : Option (List String) := none
deriving DecidableEq

/-- `_postprocess_bias_cap_only`: with `cap_only`, remove "influenza" from
the suggested diagnoses unless `_allow_influenza_bias` permits it. -/
def _postprocess_bias_cap_only (sug : Sug) (provenance : List (Prov F)) (j : CRecord)
    (cap_only : Bool) : Sug :=
  if ¬ cap_only then sug
  else
    let dx := sug.impresion_dx.getD []
    if dx = [] then sug
    else if _allow_influenza_bias j provenance then sug
    else { sug with impresion_dx := some (dx.filter fun d => ¬ (_norm d.data = "influenza".data)) }

/-- `_first_sentence` (first segment of the split at sentence-final
punctuation followed by whitespace, truncated to 300 characters). -/
def firstSentenceGo : List Char → List Char
  | [] => []
  | [c] => [c]
  | c :: d :: rest =>
    if (c = '.' ∨ c = '!' ∨ c = '?') ∧ isSpaceChar d then [c]
    else c :: firstSentenceGo (d :: rest)

def _first_sentence (txt : List Char) : List Char :=
  let t := pyStrip txt
  if t = [] then [] else (firstSentenceGo t).take 300

/-- `propose_fills`'s result (`{sugerencias_autocompletado, provenance}`). -/
structure ProposeResult (F : Type) where
  sugerencias_autocompletado : Sug
  provenance : List (Prov F)
deriving DecidableEq

/-- `propose_fills`: fill empty record fields from the strongest evidence. -/
def propose_fills (j : CRecord) (cases : List (Evid F)) : ProposeResult F :=
  let strong := (cases.filter fun c => (33/100 : F) ≤ c.score).take 5
  let ea : Option String :=
    if (j.enfermedad_actual.getD "").data = [] ∧ strong ≠ [] then
      let s0 := _first_sentence ((strong.head?.map (·.abstract)).getD "").data
      let s := if s0 = [] then _first_sentence ((strong.head?.map (·.title)).getD "").data else s0
      if 24 < s.length then
        some (String.mk (s ++ " (sugerido por casos respiratorios similares)".data))
      else none
    else none
  let dxSug : Option (List String) :=
    if j.impresion_dx = [] then
      let titles := pyLower (joinSep " ".data (strong.map (·.title.data)))
      let dx := ["neumonia","asma","epoc","infeccion respiratoria","bronquitis",
                 "covid-19","influenza"].filter fun kw => isSub kw.data (_norm titles)
      if dx ≠ [] then some (dx.eraseDups.take 3) else none
    else none
  let ordSug : Option (List Orden) :=
    if j.ordenes = [] ∧ strong.any (fun c =>
        ["guideline","consensus","recommendation","randomized","trial"].any fun x =>
          isSub x.data (pyLower c.title.data)) then
      some [{ detalle := some "Seguir recomendaciones de guía (ver evidencia vinculada)." }]
    else none
  let alSug : Option (List String) :=
    if j.alertas = [] then some ["Revisar signos de alarma y reevaluar si empeora. (sugerido)"]
    else none
  { sugerencias_autocompletado :=
      { enfermedad_actual := ea, impresion_dx := dxSug, ordenes := ordSug, alertas := alSug }
    provenance := (cases.take 10).map fun c =>
      { pmid := c.pmid, title := c.title, score := c.score, url := c.url } }

/-- The `augment_bias` dials (`cap_only` defaults on, `min_score` defaults
to `DEFAULT_MIN_SCORE`). -/
structure AugmentBias (F : Type) [LinearOrderedField F] where
  cap_only : Bool := true
  min_score : Option F := some ((30 : F)/100)
deriving DecidableEq

/-- `augment_with_pubmed`: retrieval, proposal, age/score filtering of the
provenance, then the CAP-only bias correction. -/
def augment_with_pubmed (log : F → F) (corpus : List PubRec) (j : CRecord)
    (schema_used : Option String) (top_k : Nat) (bias : AugmentBias F) : ProposeResult F :=
  let cases := retrieve_similar_cases log corpus j schema_used top_k
  let out := propose_fills j cases
  let prov := _apply_min_score_filter
    (_age_filter_provenance out.provenance (effectiveEdad j)) bias.min_score
  let sugs := _postprocess_bias_cap_only out.sugerencias_autocompletado prov j bias.cap_only
  { sugerencias_autocompletado := sugs, provenance := prov }

end Scoring


/-- Ranking entry of the three-phrase chest-pain transcript for `dolor_toracico`. -/
def dtCand : Cand :=
  { id := "dolor_toracico", score := 319/40, base := 0, bonus := 2, strong := 3,
    weight := 29/20, pubmed_q := "chest pain risk stratification troponin HEART TIMI" }

/-- Ranking entry of the three-phrase chest-pain transcript for `consulta_general`. -/
def cgCand : Cand :=
  { id := "consulta_general", score := 1, base := 1, bonus := 0, strong := 0,
    weight := 1, pubmed_q := "primary care general symptoms fever pain" }

/-- Ranking entry of the three-phrase chest-pain transcript for `respiratoria_aguda`. -/
def raCand : Cand :=
  { id := "respiratoria_aguda", score := 0, base := 0, bonus := 0, strong := 0,
    weight := 27/20, pubmed_q := "community acquired pneumonia acute cough dyspnea guideline" }

/-- Ranking entry of the three-phrase chest-pain transcript for `diabetes_control`. -/
def dbCand : Cand :=
  { id := "diabetes_control", score := 0, base := 0, bonus := 0, strong := 0,
    weight := 5/4, pubmed_q := "type 2 diabetes outpatient control A1c guideline ADA" }


/-- The schema identifiers the router can ever emit. -/
def routerIds : List String :=
  ["consulta_general", "respiratoria_aguda", "dolor_toracico", "diabetes_control"]


section RatKernelEval
/- `Rat.mul`/`Rat.inv`/`Rat.add`/`Rat.sub` are `@[irreducible]` upstream,
which blocks `decide` on concrete rational computations; they are made
semireducible locally so concrete scores evaluate. -/
attribute [local semireducible] Rat.mul Rat.inv Rat.add Rat.sub Rat.ofScientific

set_option maxRecDepth 100000

/-! ### Claims C3 and C7 (rule extraction) -/

lemma joinText_eq_nil {α : Type} (ts : List (Turn α))
    (h : ∀ t ∈ ts, pyStrip (t.text.getD "").data = []) : joinText ts = [] := by
  unfold joinText
  have hf : ((ts.map fun t => pyStrip (t.text.getD "").data).filter (· ≠ [])) = [] := by
    rw [List.filter_eq_nil_iff]
    intro a ha
    rcases List.mem_map.mp ha with ⟨t, ht, rfl⟩
    simp [h t ht]
  rw [hf]
  rfl

/-- Claim C3 (counterexample): on the empty transcript the
`revision_sistemas` mapping is not empty (the extractor always inserts the
default neurologic and dermatologic notes), refuting the claim that all four
buckets are empty. -/
theorem claim_C3_counterexample :
    (extract_from_transcript ([] : List (Turn Unit))).revision_sistemas ≠ [] := by
  decide

/-- Claim C3 (amended): on an empty transcript (no turns, or all turn texts
blank), `extract_from_transcript` returns empty `antecedentes`,
`examen_fisico` and `alertas`, and a `revision_sistemas` mapping holding
exactly the two default notes ("neurologico", "dermatologico"). -/
theorem claim_C3 {α : Type} (ts : List (Turn α))
    (h : ∀ t ∈ ts, pyStrip (t.text.getD "").data = []) :
    extract_from_transcript ts =
      { antecedentes := []
        revision_sistemas :=
          [("neurologico", RosVal.note "Sin cefalea intensa ni déficit"),
           ("dermatologico", RosVal.note "Sin exantemas")]
        examen_fisico := []
        alertas := [] } := by
  have hT := joinText_eq_nil ts h
  unfold extract_from_transcript
  rw [hT]
  decide

/-- Claim C3 witness: the amended statement evaluated on a concrete
transcript whose only turn has whitespace text. -/
theorem claim_C3_witness :
    extract_from_transcript ([{ text := some "  " }] : List (Turn Unit)) =
      { antecedentes := []
        revision_sistemas :=
          [("neurologico", RosVal.note "Sin cefalea intensa ni déficit"),
           ("dermatologico", RosVal.note "Sin exantemas")]
        examen_fisico := []
        alertas := [] } :=
  claim_C3 _ (by decide)

/-- Claim C7: the code contradicts the specified behaviour (alert iff the
numeric SatO2 reading is below 90).  On the transcript "SatO2 100" the
extractor records the reading "100" (not below 90) and nevertheless emits
the "SatO2 < 90%" alert, because the alert pattern reads only the first two
digits of the three-digit reading. -/
theorem claim_C7 :
    (extract_from_transcript ([{ text := some "SatO2 100" }] : List (Turn Unit))).examen_fisico
        = [("SatO2", "100")] ∧
      "SatO2 < 90%" ∈
        (extract_from_transcript ([{ text := some "SatO2 100" }] : List (Turn Unit))).alertas := by
  decide



/-! ### Arithmetic and ranking lemmas for the router -/

lemma roundHalfEven_intCast (n : ℤ) : roundHalfEven (n : ℚ) = n := by
  unfold roundHalfEven
  norm_num

lemma roundHalfEven_ge_floor (x : ℚ) : ⌊x⌋ ≤ roundHalfEven x := by
  unfold roundHalfEven
  split_ifs <;> omega

lemma roundHalfEven_le_floor_add_one (x : ℚ) : roundHalfEven x ≤ ⌊x⌋ + 1 := by
  unfold roundHalfEven
  split_ifs <;> omega

lemma roundHalfEven_mono {x y : ℚ} (h : x ≤ y) : roundHalfEven x ≤ roundHalfEven y := by
  rcases lt_or_eq_of_le (Int.floor_le_floor h) with hlt | heq
  · calc roundHalfEven x ≤ ⌊x⌋ + 1 := roundHalfEven_le_floor_add_one x
      _ ≤ ⌊y⌋ := by omega
      _ ≤ roundHalfEven y := roundHalfEven_ge_floor y
  · unfold roundHalfEven
    have hfr : x - ⌊x⌋ ≤ y - ⌊y⌋ := by
      rw [← heq]
      linarith
    rw [← heq] at hfr ⊢
    split_ifs <;> (try omega) <;> linarith

lemma round3_mono {x y : ℚ} (h : x ≤ y) : round3 x ≤ round3 y := by
  unfold round3
  have := roundHalfEven_mono (mul_le_mul_of_nonneg_right h (by norm_num : (0:ℚ) ≤ 1000))
  have hc : ((roundHalfEven (x * 1000) : ℚ)) ≤ ((roundHalfEven (y * 1000) : ℚ)) :=
    Int.cast_le.mpr this
  linarith

lemma round3_intDiv (k : ℤ) : round3 ((k : ℚ) / 1000) = (k : ℚ) / 1000 := by
  unfold round3
  have hk : (k : ℚ) / 1000 * 1000 = (k : ℚ) := by norm_num
  rw [hk, roundHalfEven_intCast]

lemma round3_as_intDiv (x : ℚ) : round3 x = ((roundHalfEven (x * 1000) : ℤ) : ℚ) / 1000 := rfl

lemma round3_add_intDiv (j k : ℤ) :
    round3 ((j : ℚ) / 1000 + (k : ℚ) / 1000) = (j : ℚ) / 1000 + (k : ℚ) / 1000 := by
  rw [div_add_div_same, ← Int.cast_add, round3_intDiv, Int.cast_add]

/-- Boost values are always between 0 and `PUBMED_MAX_BOOST`. -/
lemma boost_val_bounds (n : ℕ) : 0 ≤ boostVal n ∧ boostVal n ≤ PUBMED_MAX_BOOST := by
  have h0 : (0 : ℚ) ≤ min ((n : ℚ) / 200) 1 := by
    apply le_min _ (by norm_num)
    positivity
  have h1 : min ((n : ℚ) / 200) 1 ≤ 1 := min_le_right _ _
  have hprod0 : (0 : ℚ) ≤ min ((n : ℚ) / 200) 1 * PUBMED_MAX_BOOST := by
    apply mul_nonneg h0
    norm_num [PUBMED_MAX_BOOST]
  have hPMB : (0 : ℚ) ≤ PUBMED_MAX_BOOST := by norm_num [PUBMED_MAX_BOOST]
  have hprod1 : min ((n : ℚ) / 200) 1 * PUBMED_MAX_BOOST ≤ PUBMED_MAX_BOOST := by
    nlinarith [h0, h1, hPMB]
  unfold boostVal
  have hz : round3 0 = 0 := by decide
  have hm : round3 PUBMED_MAX_BOOST = PUBMED_MAX_BOOST := by decide
  constructor
  · have h := round3_mono hprod0
    rwa [hz] at h
  · have h := round3_mono hprod1
    rwa [hm] at h

/-- Every boost value is an integer number of thousandths. -/
lemma boostVal_intDiv (n : ℕ) : ∃ k : ℤ, boostVal n = (k : ℚ) / 1000 :=
  ⟨roundHalfEven (min ((n : ℚ) / 200) 1 * PUBMED_MAX_BOOST * 1000), rfl⟩

lemma boostCand_id (counts : String → Option Nat) (c : Cand) :
    (boostCand counts c).id = c.id := by
  unfold boostCand
  split_ifs
  · rfl
  · cases counts c.pubmed_q <;> rfl

/-- With a thousandth-valued score, boosting never lowers the score. -/
lemma boostCand_score_ge (counts : String → Option Nat) (c : Cand) (k : ℤ)
    (hc : c.score = (k : ℚ) / 1000) : c.score ≤ (boostCand counts c).score := by
  unfold boostCand
  split_ifs
  · rfl
  · cases hcnt : counts c.pubmed_q with
    | none => rfl
    | some n =>
      simp only
      obtain ⟨j, hj⟩ := boostVal_intDiv n
      have hb0 := (boost_val_bounds n).1
      rw [hc, hj, round3_add_intDiv]
      rw [hj] at hb0
      linarith

/-- With a thousandth-valued score, the boosted score gains at most
`PUBMED_MAX_BOOST`. -/
lemma boostCand_score_le (counts : String → Option Nat) (c : Cand) (k : ℤ)
    (hc : c.score = (k : ℚ) / 1000) :
    (boostCand counts c).score ≤ c.score + PUBMED_MAX_BOOST := by
  unfold boostCand
  split_ifs
  · simp only
    norm_num [PUBMED_MAX_BOOST]
  · cases hcnt : counts c.pubmed_q with
    | none =>
      simp only
      norm_num [PUBMED_MAX_BOOST]
    | some n =>
      simp only
      obtain ⟨j, hj⟩ := boostVal_intDiv n
      have hb1 := (boost_val_bounds n).2
      rw [hc, hj, round3_add_intDiv]
      rw [hj] at hb1
      linarith

lemma mem_insertCandDesc {x c : Cand} {l : List Cand} :
    x ∈ insertCandDesc c l ↔ x = c ∨ x ∈ l := by
  induction l with
  | nil => simp [insertCandDesc]
  | cons y ys ih =>
    unfold insertCandDesc
    split_ifs
    · simp
    · simp only [List.mem_cons, ih]
      tauto

lemma mem_sortCandsDesc {x : Cand} {l : List Cand} :
    x ∈ sortCandsDesc l ↔ x ∈ l := by
  induction l with
  | nil => simp [sortCandsDesc]
  | cons y ys ih =>
    unfold sortCandsDesc at *
    simp only [List.foldr_cons, mem_insertCandDesc, ih, List.mem_cons]

lemma insertCandDesc_eq_cons {c : Cand} {l : List Cand}
    (h : ∀ x ∈ l, x.score ≤ c.score) : insertCandDesc c l = c :: l := by
  cases l with
  | nil => rfl
  | cons y ys =>
    unfold insertCandDesc
    rw [if_pos (h y (by simp))]

lemma chain_insertCandDesc {c : Cand} {l : List Cand}
    (h : l.Chain' (fun a b => b.score ≤ a.score)) :
    (insertCandDesc c l).Chain' (fun a b => b.score ≤ a.score) := by
  induction l with
  | nil => simp [insertCandDesc]
  | cons y ys ih =>
    unfold insertCandDesc
    split_ifs with hcy
    · exact List.Chain'.cons hcy h
    · have hys := (List.chain'_cons'.mp h).2
      have htail := ih hys
      cases ys with
      | nil =>
        simp only [insertCandDesc]
        exact List.chain'_cons.mpr ⟨le_of_not_le hcy, List.chain'_singleton c⟩
      | cons z zs =>
        unfold insertCandDesc at htail ⊢
        split_ifs at htail ⊢ with hcz
        · exact List.chain'_cons.mpr ⟨le_of_not_le hcy, htail⟩
        · have hyz := (List.chain'_cons.mp h).1
          exact List.chain'_cons.mpr ⟨hyz, htail⟩

lemma sortCandsDesc_chain (l : List Cand) :
    (sortCandsDesc l).Chain' (fun a b => b.score ≤ a.score) := by
  induction l with
  | nil => simp [sortCandsDesc]
  | cons y ys ih => exact chain_insertCandDesc ih


/-! ### Claim C1 (domain routing on the chest-pain phrases) -/

/-- Claim C1 (counterexample): a transcript whose normalized text contains
"dolor torácico opresivo", "ecg" and "troponina" but also general-consult
vocabulary is routed to `consulta_general` (9.0 beats 7.975 even with the
maximal PubMed boost), so the claim, quantified over all transcripts
containing the three phrases, is false. -/
theorem claim_C1_counterexample :
    (isSub "dolor torácico opresivo".data
        (_normalize_text (_concat_transcript
          ([{ text := some "consulta control chequeo malestar fiebre cefalea diarrea vómitos resfriado anorexia astenia dolor torácico opresivo ecg troponina" }] : List (Turn Unit)))) ∧
      isSub "ecg".data
        (_normalize_text (_concat_transcript
          ([{ text := some "consulta control chequeo malestar fiebre cefalea diarrea vómitos resfriado anorexia astenia dolor torácico opresivo ecg troponina" }] : List (Turn Unit)))) ∧
      isSub "troponina".data
        (_normalize_text (_concat_transcript
          ([{ text := some "consulta control chequeo malestar fiebre cefalea diarrea vómitos resfriado anorexia astenia dolor torácico opresivo ecg troponina" }] : List (Turn Unit))))) ∧
    (pick_schema_from_transcript true (fun _ => some 500)
        ([{ text := some "consulta control chequeo malestar fiebre cefalea diarrea vómitos resfriado anorexia astenia dolor torácico opresivo ecg troponina" }] : List (Turn Unit))).schema_id
      = "consulta_general" := by
  decide

/-- Claim C1 (amended): on the representative transcript consisting exactly
of the three phrases "dolor torácico opresivo ecg troponina",
`pick_schema_from_transcript` selects `dolor_toracico` for every evidence
source behaviour (any count, any failure) and whether or not boosting is
enabled; the `_score_domain` score of `dolor_toracico` is 7.975 with 3
strong hits, at or above the strong-tier contribution 1.5·3·1.45 = 6.525,
and strictly above the `consulta_general` score (1.0) for the same text. -/
theorem claim_C1 (enabled : Bool) (counts : String → Option Nat) :
    (pick_schema_from_transcript enabled counts
        ([{ text := some "dolor torácico opresivo ecg troponina" }] : List (Turn Unit))).schema_id
      = "dolor_toracico" ∧
    (_score_domain (_normalize_text (_concat_transcript
        ([{ text := some "dolor torácico opresivo ecg troponina" }] : List (Turn Unit))))
        dolorToracicoRule).1 = 319/40 ∧
    (_score_domain (_normalize_text (_concat_transcript
        ([{ text := some "dolor torácico opresivo ecg troponina" }] : List (Turn Unit))))
        dolorToracicoRule).2.2.2 = 3 ∧
    (3/2 : ℚ) * 3 * (145/100) ≤ 319/40 ∧
    (_score_domain (_normalize_text (_concat_transcript
        ([{ text := some "dolor torácico opresivo ecg troponina" }] : List (Turn Unit))))
        consultaRule).1
      < (_score_domain (_normalize_text (_concat_transcript
        ([{ text := some "dolor torácico opresivo ecg troponina" }] : List (Turn Unit))))
        dolorToracicoRule).1 := by
  have hrank : sortCandsDesc (_RULES.map (mkCand (_normalize_text (_concat_transcript
      ([{ text := some "dolor torácico opresivo ecg troponina" }] : List (Turn Unit)))))) =
      [dtCand, cgCand, raCand, dbCand] := by decide
  refine ⟨?_, by decide, by decide, by norm_num, by decide⟩
  cases enabled with
  | false =>
    simp only [pick_schema_from_transcript, pickRanking2, pickRanking1]
    rw [hrank, if_neg (by decide : ¬ (false = true))]
    decide
  | true =>
    have hdt : dtCand.score = ((7975 : ℤ) : ℚ) / 1000 := by norm_num [dtCand]
    have hcg : cgCand.score = ((1000 : ℤ) : ℚ) / 1000 := by norm_num [cgCand]
    have hdtge := boostCand_score_ge counts dtCand 7975 hdt
    have hcgge := boostCand_score_ge counts cgCand 1000 hcg
    have hcgle := boostCand_score_le counts cgCand 1000 hcg
    rw [hdt] at hdtge
    rw [hcg] at hcgge
    rw [hcg] at hcgle
    push_cast at hdtge hcgge hcgle
    have e3 : insertCandDesc (boostCand counts cgCand) [raCand, dbCand] =
        boostCand counts cgCand :: [raCand, dbCand] := by
      apply insertCandDesc_eq_cons
      intro x hx
      fin_cases hx
      · have h0 : raCand.score = 0 := by decide
        rw [h0]
        linarith
      · have h0 : dbCand.score = 0 := by decide
        rw [h0]
        linarith
    have e4 : insertCandDesc (boostCand counts dtCand)
        (boostCand counts cgCand :: [raCand, dbCand]) =
        boostCand counts dtCand :: boostCand counts cgCand :: [raCand, dbCand] := by
      apply insertCandDesc_eq_cons
      intro x hx
      fin_cases hx
      · norm_num [PUBMED_MAX_BOOST] at hcgle
        linarith
      · have h0 : raCand.score = 0 := by decide
        rw [h0]
        linarith
      · have h0 : dbCand.score = 0 := by decide
        rw [h0]
        linarith
    have hscore : (12 : ℚ)/10 ≤ (boostCand counts dtCand).score := by
      linarith
    simp only [pick_schema_from_transcript, pickRanking2, pickRanking1]
    rw [hrank]
    simp only [_pubmed_boost, if_true, List.take, List.drop, List.map,
      sortCandsDesc, List.foldr]
    rw [show insertCandDesc dbCand [] = [dbCand] from rfl,
      show insertCandDesc raCand [dbCand] = [raCand, dbCand] by decide,
      e3, e4]
    simp only [List.head?, Option.getD]
    rw [if_neg (by
      simp only [_MIN_SCORE]
      exact not_lt.mpr hscore)]
    rw [boostCand_id]
    decide


/-! ### Claim C9 (bounded PubMed boost, failure tolerance) -/

lemma boostCand_pmid_boost_eq (counts : String → Option Nat) (c : Cand) (n : Nat)
    (hc : counts c.pubmed_q = some n) (hq : c.pubmed_q ≠ "") :
    (boostCand counts c).pmid_boost = round3 (min ((n : ℚ) / 200) 1 * PUBMED_MAX_BOOST) ∧
      (boostCand counts c).score = round3 (c.score + (boostCand counts c).pmid_boost) := by
  unfold boostCand
  rw [if_neg hq, hc]
  exact ⟨rfl, rfl⟩

lemma boostCand_none (counts : String → Option Nat) (c : Cand)
    (hc : counts c.pubmed_q = none) :
    (boostCand counts c).score = c.score ∧ (boostCand counts c).pmid_boost = 0 := by
  unfold boostCand
  split_ifs
  · exact ⟨rfl, rfl⟩
  · rw [hc]
    exact ⟨rfl, rfl⟩

lemma mem_pubmed_boost_of_drop {counts : String → Option Nat} {l : List Cand} {c : Cand}
    (h : c ∈ l.drop 2) : c ∈ _pubmed_boost true counts l := by
  unfold _pubmed_boost
  rw [if_pos rfl]
  rw [mem_sortCandsDesc]
  exact List.mem_append_right _ h

lemma mem_pubmed_boost_of_take {counts : String → Option Nat} {l : List Cand} {c : Cand}
    (h : c ∈ l.take 2) : boostCand counts c ∈ _pubmed_boost true counts l := by
  unfold _pubmed_boost
  rw [if_pos rfl]
  rw [mem_sortCandsDesc]
  exact List.mem_append_left _ (List.mem_map_of_mem _ h)

lemma pubmed_boost_ids {counts : String → Option Nat} {l : List Cand} {x : Cand}
    (h : x ∈ _pubmed_boost true counts l) : ∃ y ∈ l, x.id = y.id := by
  unfold _pubmed_boost at h
  rw [if_pos rfl, mem_sortCandsDesc] at h
  rcases List.mem_append.mp h with h | h
  · rcases List.mem_map.mp h with ⟨y, hy, rfl⟩
    exact ⟨y, List.mem_of_mem_take hy, boostCand_id counts y⟩
  · exact ⟨x, List.mem_of_mem_drop h, rfl⟩

lemma rules_id_mem (r : DomainRule) (hr : r ∈ _RULES) : r.id ∈ routerIds := by
  fin_cases hr <;> decide

lemma pickRanking2_ids {α : Type} (enabled : Bool) (counts : String → Option Nat)
    (tr : List (Turn α)) (x : Cand) (hx : x ∈ pickRanking2 enabled counts tr) :
    x.id ∈ routerIds := by
  have hbase : ∀ y ∈ pickRanking1 tr, y.id ∈ routerIds := by
    intro y hy
    unfold pickRanking1 at hy
    rw [mem_sortCandsDesc] at hy
    rcases List.mem_map.mp hy with ⟨r, hr, rfl⟩
    exact rules_id_mem r hr
  unfold pickRanking2 at hx
  split_ifs at hx with hen
  · rw [hen] at hx
    rcases pubmed_boost_ids hx with ⟨y, hy, hid⟩
    rw [hid]
    exact hbase y hy
  · exact hbase x hx

lemma pick_schema_id_mem {α : Type} (enabled : Bool) (counts : String → Option Nat)
    (tr : List (Turn α)) :
    (pick_schema_from_transcript enabled counts tr).schema_id ∈ routerIds := by
  simp only [pick_schema_from_transcript]
  split_ifs
  · decide
  · cases hcl : pickRanking2 enabled counts tr with
    | nil =>
      decide
    | cons a rest =>
      simp only [List.head?, Option.getD]
      exact pickRanking2_ids enabled counts tr a (by rw [hcl]; exact List.mem_cons_self a rest)

/-- Claim C9 (counterexample): for an evidence count of 1 the recorded boost
is `round(min(1/200, 1)·0.35, 3) = 0.002`, not the claimed unrounded
`min(1/200, 1)·0.35 = 0.00175`. -/
theorem claim_C9_counterexample :
    ((_pubmed_boost true (fun _ => some 1)
        [{ id := "dolor_toracico", score := 319/40, base := 0, bonus := 2, strong := 3,
           weight := 29/20,
           pubmed_q := "chest pain risk stratification troponin HEART TIMI" }]).map
        (fun c => c.pmid_boost)) = [2/1000] ∧
      ¬ ((2 : ℚ)/1000 = min ((1 : ℚ) / 200) 1 * PUBMED_MAX_BOOST) := by
  decide

/-- Claim C9 (amended): during routing only the top-2 ranked candidates are
boosted (the rest re-enter the final ranking untouched); a successful count
query records the boost `round(min(count/200, 1)·PUBMED_MAX_BOOST, 3)`,
which never exceeds `PUBMED_MAX_BOOST`, and (for the thousandths-valued
scores the router produces) the score gains at most `PUBMED_MAX_BOOST`; a
failed query leaves the candidate's score unchanged with zero recorded
boost; the boosted list is re-sorted descending; and
`pick_schema_from_transcript` always returns one of the rule-table schema
identifiers, whatever the evidence source does. -/
theorem claim_C9 {α : Type} (counts : String → Option Nat) (cands : List Cand)
    (enabled : Bool) (tr : List (Turn α)) :
    (∀ c ∈ cands.drop 2, c ∈ _pubmed_boost true counts cands) ∧
    (∀ c ∈ cands.take 2, boostCand counts c ∈ _pubmed_boost true counts cands) ∧
    (∀ c : Cand, ∀ n : Nat, counts c.pubmed_q = some n → c.pubmed_q ≠ "" →
        (boostCand counts c).pmid_boost
            = round3 (min ((n : ℚ) / 200) 1 * PUBMED_MAX_BOOST) ∧
          (boostCand counts c).pmid_boost ≤ PUBMED_MAX_BOOST ∧
          (boostCand counts c).score = round3 (c.score + (boostCand counts c).pmid_boost)) ∧
    (∀ c : Cand, ∀ k : ℤ, c.score = (k : ℚ) / 1000 →
        (boostCand counts c).score - c.score ≤ PUBMED_MAX_BOOST) ∧
    (∀ c : Cand, counts c.pubmed_q = none →
        (boostCand counts c).score = c.score ∧ (boostCand counts c).pmid_boost = 0) ∧
    (_pubmed_boost true counts cands).Chain' (fun a b => b.score ≤ a.score) ∧
    (pick_schema_from_transcript enabled counts tr).schema_id ∈ routerIds := by
  refine ⟨fun c hc => mem_pubmed_boost_of_drop hc,
    fun c hc => mem_pubmed_boost_of_take hc,
    fun c n hq hne => ?_,
    fun c k hk => ?_,
    fun c hq => boostCand_none counts c hq,
    ?_,
    pick_schema_id_mem enabled counts tr⟩
  · obtain ⟨h1, h2⟩ := boostCand_pmid_boost_eq counts c n hq hne
    refine ⟨h1, ?_, h2⟩
    rw [h1]
    exact (boost_val_bounds n).2
  · have hle := boostCand_score_le counts c k hk
    linarith
  · unfold _pubmed_boost
    rw [if_pos rfl]
    exact sortCandsDesc_chain _

/-- Claim C9 witness: the amended statement instantiated on a concrete
two-candidate ranking, one successful count (400, saturating the boost at
0.35) and, separately, a failing evidence source. -/
theorem claim_C9_witness :
    ((boostCand (fun _ => some 400)
        { id := "a", score := 2, base := 0, bonus := 0, strong := 0,
          weight := 1, pubmed_q := "qa" }).pmid_boost ≤ PUBMED_MAX_BOOST) ∧
    ((boostCand (fun _ => none)
        { id := "a", score := 2, base := 0, bonus := 0, strong := 0,
          weight := 1, pubmed_q := "qa" }).score = 2) ∧
    (_pubmed_boost true (fun _ => some 400)
        [{ id := "a", score := 2, base := 0, bonus := 0, strong := 0,
           weight := 1, pubmed_q := "qa" },
         { id := "b", score := 1, base := 0, bonus := 0, strong := 0,
           weight := 1, pubmed_q := "qb" },
         { id := "c", score := 0, base := 0, bonus := 0, strong := 0,
           weight := 1, pubmed_q := "qc" }]).Chain' (fun a b => b.score ≤ a.score) := by
  have h := claim_C9 (α := Unit) (fun _ => some 400)
    [{ id := "a", score := 2, base := 0, bonus := 0, strong := 0,
       weight := 1, pubmed_q := "qa" },
     { id := "b", score := 1, base := 0, bonus := 0, strong := 0,
       weight := 1, pubmed_q := "qb" },
     { id := "c", score := 0, base := 0, bonus := 0, strong := 0,
       weight := 1, pubmed_q := "qc" }] true []
  have h2 := claim_C9 (α := Unit) (fun _ => none)
    [{ id := "a", score := 2, base := 0, bonus := 0, strong := 0,
       weight := 1, pubmed_q := "qa" }] true []
  refine ⟨?_, ?_, h.2.2.2.2.2.1⟩
  · exact (h.2.2.1 ⟨"a", 2, 0, 0, 0, 1, "qa", none, 0⟩ 400 rfl (by decide)).2.1
  · exact (h2.2.2.2.2.1 ⟨"a", 2, 0, 0, 0, 1, "qa", none, 0⟩ rfl).1


/-! ### Claim C2 (exact extraction, range-validated canonicalization) -/

/-- Claim C2: the extractor reads `TA 160/95` as exactly "160/95" and the
canonicalizer keeps it; a blood pressure that parses as 300/95 (systolic
above the plausible 50–260) is dropped entirely; and every vital whose
parsed value is out of range (FC 20–220, FR 6–60, Temp 30.0–43.0,
SatO2 50–100) or unparseable is removed (set to `None`) by
`normalize_vitals`. -/
theorem claim_C2 :
    ((extract_from_transcript ([{ text := some "TA 160/95" }] : List (Turn Unit))).examen_fisico
        = [("TA", "160/95")]) ∧
    ((normalize_vitals { TA := some "160/95" }).TA = some "160/95") ∧
    (∀ (ef : EF) (t : String), ef.TA = some t → parse_bp_pair t = some (300, 95) →
        (normalize_vitals ef).TA = none) ∧
    (∀ ef : EF,
      (∀ v : ℚ, parse_number ef.FC = some v → (v < 20 ∨ 220 < v) →
          (normalize_vitals ef).FC = none) ∧
      (parse_number ef.FC = none → (normalize_vitals ef).FC = none) ∧
      (∀ v : ℚ, parse_number ef.FR = some v → (v < 6 ∨ 60 < v) →
          (normalize_vitals ef).FR = none) ∧
      (parse_number ef.FR = none → (normalize_vitals ef).FR = none) ∧
      (∀ v : ℚ, parse_number ef.Temp = some v → (v < 30 ∨ 43 < v) →
          (normalize_vitals ef).Temp = none) ∧
      (parse_number ef.Temp = none → (normalize_vitals ef).Temp = none) ∧
      (∀ v : ℚ, parse_number ef.SatO2 = some v → (v < 50 ∨ 100 < v) →
          (normalize_vitals ef).SatO2 = none) ∧
      (parse_number ef.SatO2 = none → (normalize_vitals ef).SatO2 = none)) := by
  refine ⟨by decide, by decide, ?_, ?_⟩
  · intro ef t hta hpair
    have hbp : parse_blood_pressure ef.TA = none := by
      rw [hta]
      show (if t.data = [] then none
            else
              match parse_bp_pair t with
              | some (sbp, dbp) =>
                if 50 ≤ sbp ∧ sbp ≤ 260 ∧ 30 ≤ dbp ∧ dbp ≤ 160 then some (sbp, dbp) else none
              | none => none) = none
      split_ifs with h
      · rfl
      · simp only [hpair]
        norm_num
    simp only [normalize_vitals, hbp]
  · intro ef
    refine ⟨?_, ?_, ?_, ?_, ?_, ?_, ?_, ?_⟩
    · intro v hv hout
      simp only [normalize_vitals, hv]
      rw [if_neg (by rintro ⟨ha, hb⟩; rcases hout with h | h <;> linarith)]
    · intro hv
      simp only [normalize_vitals, hv]
    · intro v hv hout
      simp only [normalize_vitals, hv]
      rw [if_neg (by rintro ⟨ha, hb⟩; rcases hout with h | h <;> linarith)]
    · intro hv
      simp only [normalize_vitals, hv]
    · intro v hv hout
      simp only [normalize_vitals, hv]
      rw [if_neg (by rintro ⟨ha, hb⟩; rcases hout with h | h <;> linarith)]
    · intro hv
      simp only [normalize_vitals, hv]
    · intro v hv hout
      simp only [normalize_vitals, hv]
      rw [if_neg (by rintro ⟨ha, hb⟩; rcases hout with h | h <;> linarith)]
    · intro hv
      simp only [normalize_vitals, hv]

/-- Claim C2 witness: the dropping behaviour evaluated at concrete
implausible readings. -/
theorem claim_C2_witness :
    (normalize_vitals { TA := some "300/95" }).TA = none ∧
    (normalize_vitals { FC := some "999" }).FC = none ∧
    (normalize_vitals { FR := some "abc" }).FR = none := by
  refine ⟨claim_C2.2.2.1 { TA := some "300/95" } "300/95" rfl (by decide), ?_, ?_⟩
  · exact (claim_C2.2.2.2 { FC := some "999" }).1 999 (by decide) (by norm_num)
  · exact (claim_C2.2.2.2 { FR := some "abc" }).2.2.2.1 (by decide)


/-! ### Claim C10 (per-turn frame property of transcript normalization) -/

/-- Claim C10: `normalize_transcript_turns` yields one output turn per input
turn in order; `t0`, `t1` and `clinical` are passed through unchanged, the
speaker is stripped/upper-cased (defaulting to "OTRO" when missing or
blank), and the text is `normalize_spanish_clinical` of the input text. -/
theorem claim_C10 {α : Type} (turns : List (Turn α)) :
    (normalize_transcript_turns turns).length = turns.length ∧
    (∀ (i : Nat) (t : Turn α), turns[i]? = some t →
      ∃ t' : Turn α, (normalize_transcript_turns turns)[i]? = some t' ∧
        t'.t0 = t.t0 ∧ t'.t1 = t.t1 ∧ t'.clinical = t.clinical ∧
        t'.text = some (normalize_spanish_clinical (t.text.getD "")) ∧
        t'.speaker = some (match pyUpper (pyStrip (t.speaker.getD "").data) with
                           | [] => "OTRO"
                           | spk => String.mk spk)) := by
  constructor
  · simp [normalize_transcript_turns]
  · intro i t ht
    refine ⟨{ speaker := some (match pyUpper (pyStrip (t.speaker.getD "").data) with
                               | [] => "OTRO"
                               | spk => String.mk spk)
              text := some (normalize_spanish_clinical (t.text.getD ""))
              t0 := t.t0
              t1 := t.t1
              clinical := t.clinical }, ?_, rfl, rfl, rfl, rfl, rfl⟩
    simp [normalize_transcript_turns, List.getElem?_map, ht]

/-- Claim C10 witness: evaluated on a turn with payloads, a noisy speaker
tag and stuttered text. -/
theorem claim_C10_witness :
    ∃ t' : Turn Nat,
      (normalize_transcript_turns
        [({ speaker := some " doctor ", text := some "tos tos tos", t0 := some 3,
            t1 := some 7, clinical := some 1 } : Turn Nat)])[0]? = some t' ∧
      t'.t0 = some 3 ∧ t'.t1 = some 7 ∧ t'.clinical = some 1 ∧
      t'.text = some (normalize_spanish_clinical "tos tos tos") ∧
      t'.speaker = some (match pyUpper (pyStrip ((some " doctor " : Option String).getD "").data) with
                         | [] => "OTRO"
                         | spk => String.mk spk) := by
  have h := (claim_C10 (α := Nat)
    [{ speaker := some " doctor ", text := some "tos tos tos", t0 := some 3,
       t1 := some 7, clinical := some 1 }]).2 0
    { speaker := some " doctor ", text := some "tos tos tos", t0 := some 3,
      t1 := some 7, clinical := some 1 } rfl
  exact h


/-! ### Claim C4 (empty corpus: empty retrieval, no evidence-derived fills) -/

/-- Claim C4 (counterexample): on the empty corpus and the empty record,
`augment_with_pubmed`'s suggestion mapping is not empty — the proposer
unconditionally suggests a generic alert whenever the record has none. -/
theorem claim_C4_counterexample :
    (augment_with_pubmed (fun x : ℚ => x) [] {} none 12 {}).sugerencias_autocompletado
      ≠ ({} : Sug) := by
  decide

/-- Claim C4 (amended): with an empty or absent corpus,
`retrieve_similar_cases` returns the empty list for every record and schema;
`propose_fills` on the empty evidence list proposes no evidence-derived fill
(no `enfermedad_actual`, no `impresion_dx`, no `ordenes` suggestion and an
empty provenance) — its only possible entry is the generic alert reminder,
present exactly when the record has no alerts — and `augment_with_pubmed`
returns that same suggestion mapping with empty provenance, raising no
error. -/
theorem claim_C4 {F : Type} [LinearOrderedField F] [FloorRing F] (log : F → F)
    (j : CRecord) (schema_used : Option String) (k : Nat) (bias : AugmentBias F) :
    retrieve_similar_cases log [] j schema_used k = [] ∧
    propose_fills j ([] : List (Evid F)) =
      { sugerencias_autocompletado :=
          { alertas := if j.alertas = []
              then some ["Revisar signos de alarma y reevaluar si empeora. (sugerido)"]
              else none }
        provenance := [] } ∧
    augment_with_pubmed log [] j schema_used k bias =
      { sugerencias_autocompletado :=
          { alertas := if j.alertas = []
              then some ["Revisar signos de alarma y reevaluar si empeora. (sugerido)"]
              else none }
        provenance := [] } := by
  have hret : retrieve_similar_cases log [] j schema_used k = [] := by
    simp only [retrieve_similar_cases, collectDocs]
    split_ifs <;> simp_all
  have hdx : (["neumonia","asma","epoc","infeccion respiratoria","bronquitis",
      "covid-19","influenza"].filter fun kw =>
        isSub kw.data (_norm (pyLower (joinSep " ".data ([] : List (List Char)))))) = [] := by
    decide
  have hpf : propose_fills j ([] : List (Evid F)) =
      { sugerencias_autocompletado :=
          { alertas := if j.alertas = []
              then some ["Revisar signos de alarma y reevaluar si empeora. (sugerido)"]
              else none }
        provenance := [] } := by
    simp only [propose_fills, List.filter_nil, List.take_nil, List.map_nil, List.any_nil]
    rw [hdx]
    simp
  have hage : _age_filter_provenance ([] : List (Prov F)) (effectiveEdad j) = [] := rfl
  have hmin : _apply_min_score_filter ([] : List (Prov F)) bias.min_score = [] := rfl
  have hpost : ∀ sug : Sug, sug.impresion_dx = none →
      _postprocess_bias_cap_only sug ([] : List (Prov F)) j bias.cap_only = sug := by
    intro sug hnone
    simp [_postprocess_bias_cap_only, hnone]
  refine ⟨hret, hpf, ?_⟩
  simp only [augment_with_pubmed, hret, hpf, hage, hmin]
  rw [hpost _ rfl]


/-! ### Claim C5 (hard filters of the evidence retriever) -/

lemma allow_influenza_cases {F : Type} [LinearOrderedField F]
    {j : CRecord} {prov : List (Prov F)}
    (h : _allow_influenza_bias j prov = true) :
    (_contains_any (_norm (joinSep " ".data
        [(j.motivo_consulta.getD "").data,
         (j.enfermedad_actual.getD "").data,
         joinSep " ".data (j.impresion_dx.map (·.data))])) ["influenza", "gripe"]) = true ∨
    ((prov.take 5).any fun p =>
      isSub "influenza".data (_norm p.title.data) ∧
        maxScore prov * (75/100 : F) ≤ p.score) = true := by
  simp only [_allow_influenza_bias] at h
  split_ifs at h with h1 h2
  · exact Or.inl h1
  · exact Or.inr h

lemma postprocess_influenza_mem {F : Type} [LinearOrderedField F]
    {sug : Sug} {prov : List (Prov F)} {j : CRecord} {d : String}
    (hd : d ∈ (_postprocess_bias_cap_only sug prov j true).impresion_dx.getD [])
    (hnorm : _norm d.data = "influenza".data) :
    _allow_influenza_bias j prov = true := by
  by_contra hallow
  rw [Bool.not_eq_true] at hallow
  simp only [_postprocess_bias_cap_only] at hd
  split_ifs at hd with hcap hdx hall
  · rw [hdx] at hd
    exact absurd hd (List.not_mem_nil d)
  · rw [hallow] at hall
    exact Bool.noConfusion hall
  · simp only [Option.getD_some, List.mem_filter, decide_eq_true_eq] at hd
    exact absurd hnorm hd.2
  · exact absurd trivial hcap

set_option maxHeartbeats 1000000 in
/-- Claim C6: with `cap_only` enabled, any "influenza" entry surviving in the
suggested diagnosis impressions requires either a literal "influenza"/"gripe"
mention in the clinical text (chief complaint, history, diagnosis
impressions) or a top-5 provenance record whose title carries "influenza"
with a score at or above 75% of the best provenance score. -/
theorem claim_C6 {F : Type} [LinearOrderedField F] [FloorRing F] (log : F → F)
    (corpus : List PubRec) (j : CRecord) (schema_used : Option String) (k : Nat)
    (bias : AugmentBias F) (hcap : bias.cap_only = true) (d : String)
    (hd : d ∈ (augment_with_pubmed log corpus j schema_used k
      bias).sugerencias_autocompletado.impresion_dx.getD [])
    (hnorm : _norm d.data = "influenza".data) :
    (_contains_any (_norm (joinSep " ".data
        [(j.motivo_consulta.getD "").data,
         (j.enfermedad_actual.getD "").data,
         joinSep " ".data (j.impresion_dx.map (·.data))])) ["influenza", "gripe"]) = true ∨
    (((augment_with_pubmed log corpus j schema_used k bias).provenance.take 5).any fun p =>
      isSub "influenza".data (_norm p.title.data) ∧
        maxScore (augment_with_pubmed log corpus j schema_used k bias).provenance
          * (75/100 : F) ≤ p.score) = true := by
  have hprov : (augment_with_pubmed log corpus j schema_used k bias).provenance
      = _apply_min_score_filter
          (_age_filter_provenance
            (propose_fills j (retrieve_similar_cases log corpus j schema_used k)).provenance
            (effectiveEdad j)) bias.min_score := by
    simp only [augment_with_pubmed]
  have hsug : (augment_with_pubmed log corpus j schema_used k bias).sugerencias_autocompletado
      = _postprocess_bias_cap_only
          (propose_fills j
            (retrieve_similar_cases log corpus j schema_used k)).sugerencias_autocompletado
          (_apply_min_score_filter
            (_age_filter_provenance
              (propose_fills j (retrieve_similar_cases log corpus j schema_used k)).provenance
              (effectiveEdad j)) bias.min_score)
          j bias.cap_only := by
    simp only [augment_with_pubmed]
  rw [hsug, hcap] at hd
  rw [hprov]
  exact allow_influenza_cases (postprocess_influenza_mem hd hnorm)

/-- Claim C6 witness: the theorem applied to a record whose clinical text
mentions influenza and a one-record corpus titled "influenza". -/
theorem claim_C6_witness :
    (_contains_any (_norm (joinSep " ".data
        [(({ motivo_consulta := some "influenza" } : CRecord).motivo_consulta.getD "").data,
         (({ motivo_consulta := some "influenza" } : CRecord).enfermedad_actual.getD "").data,
         joinSep " ".data (({ motivo_consulta := some "influenza" } : CRecord).impresion_dx.map
           (·.data))])) ["influenza", "gripe"]) = true ∨
    (((augment_with_pubmed (F := ℚ) (fun _ => 1) [{ pmid := "1", title := "influenza" }]
        { motivo_consulta := some "influenza" } none 12 {}).provenance.take 5).any fun p =>
      isSub "influenza".data (_norm p.title.data) ∧
        maxScore (augment_with_pubmed (F := ℚ) (fun _ => 1) [{ pmid := "1", title := "influenza" }]
          { motivo_consulta := some "influenza" } none 12 {}).provenance
          * (75/100 : ℚ) ≤ p.score) = true := by
  exact claim_C6 (F := ℚ) (fun _ => 1) [{ pmid := "1", title := "influenza" }]
    { motivo_consulta := some "influenza" } none 12 {} rfl "influenza" (by decide) (by decide)


end RatKernelEval

end Aurora
